import Mathlib

/-
A verification development for the support-report aggregation pipeline
(`processor/processor.py` and the per-file flow of `main.py`).

The embedding models a pandas DataFrame as an ordered column list plus an
ordered list of rows, a row being an association of column names to cell
values.  A cell value is a string, a parsed date (an integer day count),
or the null datetime NaT that `pd.to_datetime(..., errors='coerce')`
produces from unparseable input.  Python dictionaries (the partition map
and all count tables) are modelled as insertion-ordered association
lists where inserting an existing key updates it in place.  Python
exceptions that escape a function are modelled with `Except`: an
`.error` result stands for an uncaught exception.  In-place DataFrame
mutation is modelled by state passing: a mutating function returns its
result together with the post-state of the mutated structure.
-/

namespace SupportReport

/-- A cell value: a string, a parsed date (days since an arbitrary
epoch), or the null datetime NaT obtained by coercing an unparseable
date. -/
inductive Value : Type where
  | str : String → Value
  | date : Int → Value
  | NaT : Value
deriving DecidableEq

/-- A row of a record set: column names associated to cell values. -/
abbrev Row : Type := List (String × Value)

/-- A pandas DataFrame: an ordered column list and an ordered row list. -/
structure DataFrame : Type where
  cols : List String
  rows : List Row
deriving DecidableEq

/-- The empty DataFrame `pd.DataFrame()`. -/
def emptyDF : DataFrame := ⟨[], []⟩

/-- Reading a cell of a row; a missing binding reads as the null value. -/
def getCell : Row → String → Value
  | [], _ => .NaT
  | p :: rest, c => if p.1 = c then p.2 else getCell rest c

/-- Writing a cell of a row, replacing an existing binding in place. -/
def setCell : Row → String → Value → Row
  | [], c, v => [(c, v)]
  | p :: rest, c, v => if p.1 = c then (c, v) :: rest else p :: setCell rest c v

/-- Applying a function to one column of a row
(the row-level effect of `df[col] = f(df[col])`). -/
def mapColRow (c : String) (f : Value → Value) (r : Row) : Row :=
  setCell r c (f (getCell r c))

/-- The column assignment `df[col] = f(df[col])`: every row gets the
updated cell, and the column is appended to the schema if it was new. -/
def mapCol (df : DataFrame) (c : String) (f : Value → Value) : DataFrame :=
  ⟨if c ∈ df.cols then df.cols else df.cols ++ [c], df.rows.map (mapColRow c f)⟩

/-- Boolean-mask row selection `df[pred]`: keeps the rows satisfying the
predicate, in order, with the schema unchanged. -/
def filterRows (df : DataFrame) (p : Row → Bool) : DataFrame :=
  ⟨df.cols, df.rows.filter p⟩

/-- `(df[c] == v).sum()`: the number of rows whose cell at `c` equals `v`. -/
def countMatch (df : DataFrame) (c : String) (v : Value) : Nat :=
  df.rows.countP (fun r => decide (getCell r c = v))

/-- A Python dictionary with string keys: an insertion-ordered
association list whose keys are pairwise distinct by construction. -/
abbrev Dict (α : Type) : Type := List (String × α)

/-- Dictionary lookup (first matching binding). -/
def dlookup {α : Type} : Dict α → String → Option α
  | [], _ => none
  | p :: rest, k => if p.1 = k then some p.2 else dlookup rest k

/-- Dictionary write `d[k] = v`: updates an existing key in place
(keeping its position) or appends a new binding, as a Python dict does. -/
def dinsert {α : Type} : Dict α → String → α → Dict α
  | [], k, v => [(k, v)]
  | p :: rest, k, v => if p.1 = k then (k, v) :: rest else p :: dinsert rest k v

/-- In-place update of the value stored at an existing key
(`d[k].mutate()`); absent keys are untouched. -/
def dupdate {α : Type} : Dict α → String → (α → α) → Dict α
  | [], _, _ => []
  | p :: rest, k, f => (if p.1 = k then (k, f p.2) else p) :: dupdate rest k f

/-- `pd.to_datetime(·, errors='coerce')` on one cell: an already parsed
date passes through, a string parses via the supplied date parser or
coerces to NaT, and null stays null. -/
def parseDate (parse : String → Option Int) : Value → Value
  | .str s => match parse s with
    | some d => .date d
    | none => .NaT
  | .date d => .date d
  | .NaT => .NaT

/-- Datetime comparison `v >= cutoff`; any comparison with NaT (or a
non-datetime) is false, as in pandas. -/
def dateGE : Value → Int → Bool
  | .date d, c => decide (c ≤ d)
  | _, _ => false

/-- Datetime comparison `v < cutoff`; any comparison with NaT (or a
non-datetime) is false, as in pandas. -/
def dateLT : Value → Int → Bool
  | .date d, c => decide (d < c)
  | _, _ => false

/-- Whether a value is the null datetime NaT. -/
def isNaT : Value → Bool
  | .NaT => true
  | _ => false

/-- `TicketProcessor.filter_last_8_days`: parses the date column in
place (coercing failures to NaT) and keeps the rows whose date is on or
after `current_date - 8` days.  A missing date column raises inside the
`try` and the handler returns an empty DataFrame, leaving the caller's
DataFrame untouched.  Returns the selected rows together with the
post-state of the caller's (mutated) DataFrame. -/
def filter_last_8_days (parse : String → Option Int) (df : DataFrame)
    (date_column : String) (current_date : Int) : DataFrame × DataFrame :=
  if date_column ∈ df.cols then
    let df2 := mapCol df date_column (parseDate parse)
    (filterRows df2 (fun r => dateGE (getCell r date_column) (current_date - 8)), df2)
  else (emptyDF, df)

/-- `TicketProcessor.filter_before_last_8_days`: parses the date column
in place and keeps the rows whose date is strictly before
`current_date - 8` days; otherwise as `filter_last_8_days`. -/
def filter_before_last_8_days (parse : String → Option Int) (df : DataFrame)
    (date_column : String) (current_date : Int) : DataFrame × DataFrame :=
  if date_column ∈ df.cols then
    let df2 := mapCol df date_column (parseDate parse)
    (filterRows df2 (fun r => dateLT (getCell r date_column) (current_date - 8)), df2)
  else (emptyDF, df)

/-- The result of `TicketProcessor.split_dataframe_by_bot_name`: either
the partition map, or the literal `({}, [])` pair that the exception
handler returns. -/
inductive SplitResult : Type where
  | map : Dict DataFrame → SplitResult
  | errPair : SplitResult
deriving DecidableEq

/-- `TicketProcessor.split_dataframe_by_bot_name`: one partition per
listed bot name, holding the rows whose bot-identity cell equals that
name.  A missing bot-identity column raises a `ValueError` that the
handler turns into the `({}, [])` pair. -/
def split_dataframe_by_bot_name (df : DataFrame) (bot_name_list : List String)
    (bot_name_column : String) : SplitResult :=
  if bot_name_column ∈ df.cols then
    .map (bot_name_list.foldl
      (fun m bot =>
        dinsert m bot (filterRows df (fun r => decide (getCell r bot_name_column = .str bot))))
      [])
  else .errPair

/-- The inner value loop of `total_ticket_received_count`:
`all_counts[f"{key}_{value}"] = count if count > 0 else 0` for every
comparison value. -/
def ttrc_write (df : DataFrame) (column_name key : String)
    (comparison_values : List String) (acc : Dict Nat) : Dict Nat :=
  comparison_values.foldl
    (fun a v =>
      let count := countMatch df column_name (.str v)
      dinsert a (key ++ "_" ++ v) (if count > 0 then count else 0))
    acc

/-- One key iteration of `total_ticket_received_count`: skip a missing
key or missing column with a warning, otherwise run the value loop. -/
def ttrc_step (d : Dict DataFrame) (comparison_values : List String)
    (column_name : String) (acc : Dict Nat) (key : String) : Dict Nat :=
  match dlookup d key with
  | none => acc
  | some df =>
    if column_name ∈ df.cols then ttrc_write df column_name key comparison_values acc
    else acc

/-- `TicketProcessor.total_ticket_received_count`: for each listed key
present in the partition map whose DataFrame has the counted column,
writes `all_counts[key + "_" + value] = count` for every comparison
value (the source's `count if count > 0 else 0` is kept verbatim).
Missing keys and missing columns are skipped. -/
def total_ticket_received_count (d : Dict DataFrame) (splitted_df_key_list : List String)
    (comparison_values : List String) (column_name : String) : Dict Nat :=
  splitted_df_key_list.foldl (ttrc_step d comparison_values column_name) []

/-- The inner mode loop of `count_tickets_for_unique_modes`:
`all_counts[f'total_{status_value}_ticket_{key}_{mode}'] = count if
count > 0 else 0`, accessing the hard-coded `Mode` column (a missing
`Mode` column raises a `KeyError`). -/
def ctfum_write (filtered : DataFrame) (status_value key : String)
    (mode_list : List String) (acc : Dict Nat) : Except String (Dict Nat) :=
  mode_list.foldlM
    (fun a mode =>
      if "Mode" ∈ filtered.cols then
        let count := countMatch filtered "Mode" (.str mode)
        pure (dinsert a ("total_" ++ status_value ++ "_ticket_" ++ key ++ "_" ++ mode)
          (if count > 0 then count else 0))
      else .error "KeyError")
    acc

/-- One key iteration of `count_tickets_for_unique_modes`: skip a
missing key with a warning; filter on the status column (a missing
status column raises a `KeyError`); then run the mode loop. -/
def ctfum_step (d : Dict DataFrame) (mode_list : List String)
    (status_column status_value : String) (acc : Dict Nat) (key : String) :
    Except String (Dict Nat) :=
  match dlookup d key with
  | none => pure acc
  | some df =>
    if status_column ∈ df.cols then
      ctfum_write (filterRows df (fun r => decide (getCell r status_column = .str status_value)))
        status_value key mode_list acc
    else .error "KeyError"

/-- `TicketProcessor.count_tickets_for_unique_modes`: for each listed
key present in the map, filters to `status_column == status_value` and
counts each mode in the hard-coded `Mode` column.  The source checks
neither the status column nor the `Mode` column, so a missing one
raises a `KeyError` (modelled as `.error`). -/
def count_tickets_for_unique_modes (d : Dict DataFrame) (splitted_df_key_list : List String)
    (mode_list : List String) (status_column : String) (status_value : String) :
    Except String (Dict Nat) :=
  splitted_df_key_list.foldlM (ctfum_step d mode_list status_column status_value) []

/-- The inner value loop of `total_ticket_received_count_modewise`:
`mode_counts[value][key] = count`, followed by the source's redundant
re-write of `0` when the count is zero. -/
def mw_write (df : DataFrame) (column_name key : String)
    (comparison_values : List String) (acc : Dict (Dict Nat)) : Dict (Dict Nat) :=
  comparison_values.foldl
    (fun a v =>
      let count := countMatch df column_name (.str v)
      let a2 := dupdate a v (fun inner => dinsert inner key count)
      if count = 0 then dupdate a2 v (fun inner => dinsert inner key 0) else a2)
    acc

/-- One key iteration of `total_ticket_received_count_modewise`: skip a
missing key or missing column with a warning, otherwise run the value
loop. -/
def mw_step (d : Dict DataFrame) (comparison_values : List String)
    (column_name : String) (acc : Dict (Dict Nat)) (key : String) : Dict (Dict Nat) :=
  match dlookup d key with
  | none => acc
  | some df =>
    if column_name ∈ df.cols then mw_write df column_name key comparison_values acc
    else acc

/-- `TicketProcessor.total_ticket_received_count_modewise`: initialises
one inner dictionary per comparison value, then for each listed key
present in the map whose DataFrame has the counted column writes
`mode_counts[value][key] = count` (followed by the source's redundant
re-write of `0` when the count is zero). -/
def total_ticket_received_count_modewise (d : Dict DataFrame)
    (splitted_df_key_list : List String) (comparison_values : List String)
    (column_name : String) : Dict (Dict Nat) :=
  splitted_df_key_list.foldl (mw_step d comparison_values column_name)
    (comparison_values.foldl (fun m v => dinsert m v []) [])

/-- `str.lower().strip()` on a Python string: lowercase every
character, then drop leading and trailing whitespace (modelled on the
character list of the string). -/
def cleanStr (s : String) : String :=
  ⟨(((s.data.map Char.toLower).dropWhile Char.isWhitespace).reverse.dropWhile
      Char.isWhitespace).reverse⟩

/-- The pandas `.str.lower().str.strip()` on one cell: strings are
lowercased and stripped, anything non-string becomes null. -/
def cleanValue : Value → Value
  | .str s => .str (cleanStr s)
  | _ => .NaT

/-- The key loop of `problem_reported_count_botwise`, threading both
the count accumulator and the (mutated) partition-map state. -/
def prcb_go (values : List String) (column_name : String) :
    List String → Dict (Dict Nat) → Dict DataFrame →
    Except String (Dict (Dict Nat)) × Dict DataFrame
  | [], acc, st => (.ok acc, st)
  | bot_key :: rest, acc, st =>
    match dlookup st bot_key with
    | none => prcb_go values column_name rest acc st
    | some df =>
      if column_name ∈ df.cols then
        let df2 := mapCol df column_name cleanValue
        let acc2 := values.foldl
          (fun a v =>
            let cleaned_value := cleanStr v
            let count := countMatch df2 column_name (.str cleaned_value)
            dupdate a v (fun inner => dinsert inner bot_key count))
          acc
        prcb_go values column_name rest acc2 (dinsert st bot_key df2)
      else (.error "NameError", st)

/-- `TicketProcessor.problem_reported_count_botwise`: initialises one
inner dictionary per comparison value, then for each listed key present
in the map rewrites the counted column of the stored DataFrame in place
with lowercased, stripped text and counts each cleaned comparison
value.  When the counted column is missing, the warning line mentions
an undefined variable `key`, so the call raises a `NameError` (modelled
as `.error`).  Returns the counts together with the post-state of the
caller's partition map. -/
def problem_reported_count_botwise (d : Dict DataFrame)
    (splitted_df_key_list : List String) (comparison_values : List String)
    (column_name : String) : Except String (Dict (Dict Nat)) × Dict DataFrame :=
  prcb_go comparison_values column_name splitted_df_key_list
    (comparison_values.foldl (fun m v => dinsert m v []) []) d

/-- The mode-summing generator of `count_bot_wise_status_tickets`:
`sum((filtered_df['Mode'] == mode).sum() for mode in mode_list)`, which
raises a `KeyError` on its first element when the `Mode` column is
missing. -/
def cbwst_sum (filtered : DataFrame) : List String → Except String Nat
  | [] => .ok 0
  | mode :: rest =>
    if "Mode" ∈ filtered.cols then
      match cbwst_sum filtered rest with
      | .ok s => .ok (countMatch filtered "Mode" (.str mode) + s)
      | .error e => .error e
    else .error "KeyError"

/-- One key iteration of `count_bot_wise_status_tickets`: skip a
missing key with a warning; filter on the status column (a missing
status column raises a `KeyError`); then store the mode sum under the
bot name. -/
def cbwst_step (d : Dict DataFrame) (mode_list : List String)
    (status_column status_value : String) (acc : Dict Nat) (key : String) :
    Except String (Dict Nat) :=
  match dlookup d key with
  | none => pure acc
  | some df =>
    if status_column ∈ df.cols then
      match cbwst_sum (filterRows df (fun r => decide (getCell r status_column = .str status_value)))
          mode_list with
      | .ok total => pure (dinsert acc key total)
      | .error e => .error e
    else .error "KeyError"

/-- `TicketProcessor.count_bot_wise_status_tickets`: for each listed
key present in the map, filters to `status_column == status_value` and
stores the sum of the per-mode counts under the bot name.  As in the
source, a missing status column (or a missing `Mode` column with a
non-empty mode list) raises a `KeyError` (modelled as `.error`). -/
def count_bot_wise_status_tickets (d : Dict DataFrame) (splitted_df_key_list : List String)
    (mode_list : List String) (status_column : String) (status_value : String) :
    Except String (Dict Nat) :=
  splitted_df_key_list.foldlM (cbwst_step d mode_list status_column status_value) []

/-- The successful-path accumulator of one key iteration of
`count_tickets_for_unique_modes` (no column errors): used to reason
about the `Except`-valued fold. -/
def ctfum_stepP (d : Dict DataFrame) (mode_list : List String)
    (status_column status_value : String) (acc : Dict Nat) (key : String) : Dict Nat :=
  match dlookup d key with
  | none => acc
  | some df =>
    mode_list.foldl
      (fun a mode =>
        dinsert a ("total_" ++ status_value ++ "_ticket_" ++ key ++ "_" ++ mode)
          (if countMatch (filterRows df (fun r => decide (getCell r status_column = .str status_value)))
                "Mode" (.str mode) > 0
           then countMatch (filterRows df (fun r => decide (getCell r status_column = .str status_value)))
                "Mode" (.str mode)
           else 0))
      acc

/-- The successful-path accumulator of one key iteration of
`count_bot_wise_status_tickets` (no column errors): used to reason
about the `Except`-valued fold. -/
def cbwst_stepP (d : Dict DataFrame) (mode_list : List String)
    (status_column status_value : String) (acc : Dict Nat) (key : String) : Dict Nat :=
  match dlookup d key with
  | none => acc
  | some df =>
    dinsert acc key
      ((mode_list.map
          (fun m => countMatch
            (filterRows df (fun r => decide (getCell r status_column = .str status_value)))
            "Mode" (.str m))).sum)

/-- `series.unique()` for a string column: the distinct string values
in order of first appearance. -/
def uniqueVals (df : DataFrame) (c : String) : List String :=
  df.rows.foldl
    (fun acc r =>
      match getCell r c with
      | .str s => if s ∈ acc then acc else acc ++ [s]
      | _ => acc)
    []

/-- The count tables that one iteration of
`process_csv_files_in_folder` hands to the report renderer. -/
structure Tables : Type where
  mode_wise : Dict (Dict Nat)
  closed_current : Dict Nat
  open_current : Dict Nat
  onhold_current : Dict Nat
  archive_open : Dict Nat
  total_received : Dict Nat
deriving DecidableEq

/-- The aggregation pipeline of one file iteration of
`process_csv_files_in_folder` (`main.py`), over an already-cleaned
DataFrame and with the two wall-clock reads of `pd.to_datetime('today')`
fixed to one reference date: current-week filter (mutating the shared
DataFrame in place), bot partitioning, the four counting operations,
then the archive filter over the same mutated DataFrame and the archive
counts.  `list(tuple.keys())` after a failed split raises an
`AttributeError`, and errors of the counting calls propagate. -/
def pipeline (parse : String → Option Int) (main_df : DataFrame) (current_date : Int) :
    Except String Tables :=
  let pr := filter_last_8_days parse main_df "Ticket Creation Date" current_date
  let current_week_df := pr.1
  let df1 := pr.2
  let bot_name_list := uniqueVals df1 "Bot Name"
  match split_dataframe_by_bot_name current_week_df bot_name_list "Bot Name" with
  | .errPair => .error "AttributeError"
  | .map splitted => do
    let splitted_df_key_list := splitted.map Prod.fst
    let mode_list := uniqueVals df1 "Mode"
    let total_received := total_ticket_received_count splitted splitted_df_key_list mode_list "Mode"
    let _discarded_closed ← count_tickets_for_unique_modes splitted splitted_df_key_list mode_list "Status" "Closed"
    let mode_wise := total_ticket_received_count_modewise splitted splitted_df_key_list mode_list "Mode"
    let _discarded_open ← count_tickets_for_unique_modes splitted splitted_df_key_list mode_list "Status" "Open"
    let _discarded_onhold ← count_tickets_for_unique_modes splitted splitted_df_key_list mode_list "Status" "On Hold"
    let closed_current ← count_bot_wise_status_tickets splitted splitted_df_key_list mode_list "Status" "Closed"
    let open_current ← count_bot_wise_status_tickets splitted splitted_df_key_list mode_list "Status" "Open"
    let onhold_current ← count_bot_wise_status_tickets splitted splitted_df_key_list mode_list "Status" "On Hold"
    let ar := filter_before_last_8_days parse df1 "Ticket Creation Date" current_date
    let last_archive_df := ar.1
    match split_dataframe_by_bot_name last_archive_df bot_name_list "Bot Name" with
    | .errPair => .error "AttributeError"
    | .map splitted_last => do
      let key_list_last := splitted_last.map Prod.fst
      let archive_open ← count_bot_wise_status_tickets splitted_last key_list_last mode_list "Status" "Open"
      pure ⟨mode_wise, closed_current, open_current, onhold_current, archive_open, total_received⟩

/-! Derived predicates and decidable side conditions used to state the
claims. -/

/-- The row's date value, after the in-place coercion, is a real date
on or after `current_date - 8`: the selection class of
`filter_last_8_days`. -/
def recentB (parse : String → Option Int) (date_column : String) (current_date : Int)
    (r : Row) : Bool :=
  dateGE (parseDate parse (getCell r date_column)) (current_date - 8)

/-- The row's date value, after the in-place coercion, is a real date
strictly before `current_date - 8`: the selection class of
`filter_before_last_8_days`. -/
def archiveB (parse : String → Option Int) (date_column : String) (current_date : Int)
    (r : Row) : Bool :=
  dateLT (parseDate parse (getCell r date_column)) (current_date - 8)

/-- The row's date value fails to parse (coerces to NaT). -/
def unparseB (parse : String → Option Int) (date_column : String) (r : Row) : Bool :=
  isNaT (parseDate parse (getCell r date_column))

/-- The listed keys that are present in the partition map (the ones a
counting operation does not skip). -/
def presentKeys (d : Dict DataFrame) (keys : List String) : List String :=
  keys.filter (fun k => (dlookup d k).isSome)

/-- Decidable side condition: every listed key is present in the map
and its record set has the given column. -/
def keysHaveCol (d : Dict DataFrame) (keys : List String) (c : String) : Bool :=
  keys.all (fun k =>
    match dlookup d k with
    | some df => decide (c ∈ df.cols)
    | none => false)

/-- Decidable side condition: every listed key that is present in the
map has the given column in its record set. -/
def presentKeysHaveCol (d : Dict DataFrame) (keys : List String) (c : String) : Bool :=
  keys.all (fun k =>
    match dlookup d k with
    | some df => decide (c ∈ df.cols)
    | none => true)

/-- Decidable side condition: every listed key that is present in the
map has both the status column and the `Mode` column in its record
set (so the status-filtered counting operations succeed). -/
def presentKeysHaveStatusMode (d : Dict DataFrame) (keys : List String)
    (status_column : String) : Bool :=
  keys.all (fun k =>
    match dlookup d k with
    | some df => decide (status_column ∈ df.cols) && decide ("Mode" ∈ df.cols)
    | none => true)

/-- Decidable side condition: distinct requested (key, value) pairs
produce distinct composite strings `key ++ "_" ++ value`. -/
def compInj (keys values : List String) : Bool :=
  keys.all (fun k1 => values.all (fun v1 => keys.all (fun k2 => values.all (fun v2 =>
    decide (k1 ++ "_" ++ v1 = k2 ++ "_" ++ v2 → k1 = k2 ∧ v1 = v2)))))

/-- Decidable side condition: distinct requested (key, mode) pairs
produce distinct composite strings
`"total_" ++ sv ++ "_ticket_" ++ key ++ "_" ++ mode`. -/
def compInjStatus (sv : String) (keys modes : List String) : Bool :=
  keys.all (fun k1 => modes.all (fun v1 => keys.all (fun k2 => modes.all (fun v2 =>
    decide ("total_" ++ sv ++ "_ticket_" ++ k1 ++ "_" ++ v1
              = "total_" ++ sv ++ "_ticket_" ++ k2 ++ "_" ++ v2 → k1 = k2 ∧ v1 = v2)))))

/-! Concrete record sets used as test inputs for witnesses and
counterexamples. -/

/-- A one-row record set whose `Mode` is `X`: the partition of bot `A`
in the composite-key collision scenario. -/
def dfModeX : DataFrame := ⟨["Mode"], [[("Mode", .str "X")]]⟩

/-- A one-row record set whose `Mode` is `C`: the partition of bot
`A_B` in the composite-key collision scenario. -/
def dfModeC : DataFrame := ⟨["Mode"], [[("Mode", .str "C")]]⟩

/-- A partition map for bots `A` and `A_B`, whose composite keys
collide: `"A" + "_" + "B_C"` and `"A_B" + "_" + "C"` are both
`"A_B_C"`. -/
def collisionMap : Dict DataFrame := [("A", dfModeX), ("A_B", dfModeC)]

/-- A record set with one closed `X_Y` ticket. -/
def dfClosedXY : DataFrame :=
  ⟨["Mode", "Status"], [[("Mode", .str "X_Y"), ("Status", .str "Closed")]]⟩

/-- An empty record set with `Mode` and `Status` columns. -/
def dfNoRows : DataFrame := ⟨["Mode", "Status"], []⟩

/-- A partition map for bots `A` and `A_X`, whose status composite keys
collide: `total_Closed_ticket_A_` followed by `X_Y`, and
`total_Closed_ticket_A_X_` followed by `Y`, are the same string. -/
def collisionMap2 : Dict DataFrame := [("A", dfClosedXY), ("A_X", dfNoRows)]

/-- The record set of the count_tickets_for_unique_modes scenario: bot
`A` with one closed and one open email ticket. -/
def dfScenario : DataFrame :=
  ⟨["Bot Name", "Mode", "Status"],
   [[("Bot Name", .str "A"), ("Mode", .str "Email"), ("Status", .str "Closed")],
    [("Bot Name", .str "A"), ("Mode", .str "Email"), ("Status", .str "Open")]]⟩

/-- A record set that lacks the `Status` column. -/
def dfNoStatus : DataFrame := ⟨["Mode"], [[("Mode", .str "Email")]]⟩

/-- A record set that lacks the `Bot Name` column. -/
def dfNoBot : DataFrame := ⟨["Mode"], [[("Mode", .str "Email")]]⟩

/-- A sample date parser for concrete runs: day names `d1` and `d20`
parse to days 1 and 20, everything else is unparseable. -/
def sampleParse (s : String) : Option Int :=
  if s = "d1" then some 1 else if s = "d20" then some 20 else none

/-- A record set with a date column holding a recent date, an old date
and an unparseable date, plus bot and mode columns. -/
def dfDates : DataFrame :=
  ⟨["Ticket Creation Date", "Bot Name", "Mode", "Status"],
   [[("Ticket Creation Date", .str "d20"), ("Bot Name", .str "A"), ("Mode", .str "Email"), ("Status", .str "Open")],
    [("Ticket Creation Date", .str "d1"), ("Bot Name", .str "A"), ("Mode", .str "Email"), ("Status", .str "Closed")],
    [("Ticket Creation Date", .str "oops"), ("Bot Name", .str "B"), ("Mode", .str "Phone"), ("Status", .str "Open")]]⟩

/-- A record set with a free-text problem column in mixed case. -/
def dfProblems : DataFrame :=
  ⟨["Problem Reported"], [[("Problem Reported", .str "  Broken SCREEN ")]]⟩

/-- A one-key partition map holding the problem-text record set. -/
def problemsMap : Dict DataFrame := [("A", dfProblems)]

/-! Basic lemmas about the dictionary and cell operations. -/

theorem dlookup_dinsert {α : Type} (m : Dict α) (k : String) (v : α) (k2 : String) :
    dlookup (dinsert m k v) k2 = if k2 = k then some v else dlookup m k2 := by
  induction m with
  | nil =>
    by_cases h : k2 = k
    · simp [dinsert, dlookup, h]
    · simp [dinsert, dlookup, h, Ne.symm h]
  | cons p rest ih =>
    by_cases hp : p.1 = k
    · by_cases h : k2 = k
      · simp [dinsert, dlookup, hp, h]
      · simp [dinsert, dlookup, hp, h, Ne.symm h]
    · by_cases hh : p.1 = k2
      · have hk : ¬k2 = k := fun he => hp (by rw [hh, he])
        simp [dinsert, dlookup, hp, hh, hk]
      · simp [dinsert, dlookup, hp, hh, ih]

theorem dlookup_dupdate {α : Type} (m : Dict α) (k : String) (f : α → α) (k2 : String) :
    dlookup (dupdate m k f) k2 = if k2 = k then (dlookup m k).map f else dlookup m k2 := by
  induction m with
  | nil => simp [dupdate, dlookup]
  | cons p rest ih =>
    by_cases hp : p.1 = k
    · by_cases h : k2 = k
      · simp [dupdate, dlookup, hp, h]
      · simp [dupdate, dlookup, hp, h, Ne.symm h, ih]
    · by_cases hh : p.1 = k2
      · have hk : ¬k2 = k := fun he => hp (by rw [hh, he])
        simp [dupdate, dlookup, hp, hh, hk]
      · simp [dupdate, dlookup, hp, hh, ih]

theorem getCell_setCell_same (r : Row) (c : String) (v : Value) :
    getCell (setCell r c v) c = v := by
  induction r with
  | nil => simp [setCell, getCell]
  | cons p rest ih =>
    by_cases hp : p.1 = c
    · simp [setCell, getCell, hp]
    · simp [setCell, getCell, hp, ih]

theorem getCell_setCell_ne (r : Row) (c : String) (v : Value) (c2 : String) (h : c2 ≠ c) :
    getCell (setCell r c v) c2 = getCell r c2 := by
  induction r with
  | nil => simp [setCell, getCell, Ne.symm h]
  | cons p rest ih =>
    by_cases hp : p.1 = c
    · simp [setCell, getCell, hp, Ne.symm h]
    · by_cases hh : p.1 = c2
      · simp [setCell, getCell, hp, hh, h]
      · simp [setCell, getCell, hp, hh, h, ih]

theorem getCell_mapColRow (c : String) (f : Value → Value) (r : Row) :
    getCell (mapColRow c f r) c = f (getCell r c) := by
  unfold mapColRow; exact getCell_setCell_same ..

/-- The output of the date coercion is always a real date or NaT. -/
theorem parseDate_cases (parse : String → Option Int) (v : Value) :
    (∃ d, parseDate parse v = .date d) ∨ parseDate parse v = .NaT := by
  cases v with
  | str s =>
    cases hp : parse s with
    | none => right; simp [parseDate, hp]
    | some d => left; exact ⟨d, by simp [parseDate, hp]⟩
  | date d => left; exact ⟨d, rfl⟩
  | NaT => right; rfl

/-- The source's `count if count > 0 else 0` is the identity on `Nat`. -/
theorem clip_eq (n : Nat) : (if n > 0 then n else 0) = n := by
  cases n <;> simp

/-! Generic lemmas about a fold of dictionary writes: the write list is
described by a composite-key function and a value function, and the
lookup of a key after the fold is its last write (or its prior value). -/

theorem dlookup_foldl_stable {α ι : Type} (comp : ι → String) (val : ι → α)
    (c : String) (n : α) :
    ∀ (l : List ι) (m : Dict α), (∀ i ∈ l, comp i = c → val i = n) →
      dlookup m c = some n →
      dlookup (l.foldl (fun a i => dinsert a (comp i) (val i)) m) c = some n := by
  intro l
  induction l with
  | nil => intro m _ hm; exact hm
  | cons i rest ih =>
    intro m hs hm
    simp only [List.foldl_cons]
    refine ih _ (fun j hj hc => hs j (List.mem_cons_of_mem _ hj) hc) ?_
    rw [dlookup_dinsert]
    by_cases hc : c = comp i
    · rw [if_pos hc, hs i (List.mem_cons_self _ _) hc.symm]
    · rw [if_neg hc]; exact hm

theorem dlookup_foldl_mem {α ι : Type} (comp : ι → String) (val : ι → α)
    (c : String) (n : α) (i0 : ι) :
    ∀ (l : List ι) (m : Dict α), i0 ∈ l → comp i0 = c → val i0 = n →
      (∀ i ∈ l, comp i = c → val i = n) →
      dlookup (l.foldl (fun a i => dinsert a (comp i) (val i)) m) c = some n := by
  intro l
  induction l with
  | nil => intro m h0; cases h0
  | cons i rest ih =>
    intro m h0 hc0 hv0 hs
    simp only [List.foldl_cons]
    by_cases hci : comp i = c
    · refine dlookup_foldl_stable comp val c n rest _
        (fun j hj hc => hs j (List.mem_cons_of_mem _ hj) hc) ?_
      rw [dlookup_dinsert, if_pos hci.symm, hs i (List.mem_cons_self _ _) hci]
    · have hne : i0 ≠ i := fun he => hci (he ▸ hc0)
      have h0r : i0 ∈ rest := by
        rcases List.mem_cons.mp h0 with he | hr
        · exact absurd he hne
        · exact hr
      exact ih _ h0r hc0 hv0 (fun j hj hc => hs j (List.mem_cons_of_mem _ hj) hc)

/-! Claim C2: the two time-window filters and the unparseable rows
partition the record set exactly. -/

/-- Helper: the rows selected by a filter over the parsed DataFrame
correspond to the rows of the original DataFrame whose parsed date
satisfies the comparison. -/
theorem filterRows_mapCol_rows (df : DataFrame) (c : String) (f : Value → Value)
    (q : Value → Bool) :
    (filterRows (mapCol df c f) (fun r => q (getCell r c))).rows
      = (df.rows.filter (fun r => q (f (getCell r c)))).map (mapColRow c f) := by
  simp only [filterRows, mapCol]
  rw [List.filter_map]
  congr 1
  apply List.filter_congr
  intro r _
  simp only [Function.comp_apply, getCell_mapColRow]

/-- C2: for every record set, date column and reference date, the rows
selected by `filter_last_8_days` are exactly those whose parsed date is
on or after `current_date - 8`, the rows selected by
`filter_before_last_8_days` are exactly those whose parsed date is
strictly before `current_date - 8`, and together with the rows whose
date fails to parse these three classes partition the record set
exactly: every row falls in exactly one class. -/
theorem time_window_filters_partition_rows (parse : String → Option Int)
    (df : DataFrame) (date_column : String) (current_date : Int)
    (h : date_column ∈ df.cols) :
    ((filter_last_8_days parse df date_column current_date).1).rows
        = (df.rows.filter (recentB parse date_column current_date)).map
            (mapColRow date_column (parseDate parse))
    ∧ ((filter_before_last_8_days parse df date_column current_date).1).rows
        = (df.rows.filter (archiveB parse date_column current_date)).map
            (mapColRow date_column (parseDate parse))
    ∧ ∀ r ∈ df.rows,
        (recentB parse date_column current_date r
          ∨ archiveB parse date_column current_date r
          ∨ unparseB parse date_column r)
        ∧ ¬(recentB parse date_column current_date r
              ∧ archiveB parse date_column current_date r)
        ∧ ¬(recentB parse date_column current_date r ∧ unparseB parse date_column r)
        ∧ ¬(archiveB parse date_column current_date r ∧ unparseB parse date_column r) := by
  refine ⟨?_, ?_, ?_⟩
  · simp only [filter_last_8_days, if_pos h]
    exact filterRows_mapCol_rows df date_column (parseDate parse)
      (fun v => dateGE v (current_date - 8))
  · simp only [filter_before_last_8_days, if_pos h]
    exact filterRows_mapCol_rows df date_column (parseDate parse)
      (fun v => dateLT v (current_date - 8))
  · intro r _
    rcases parseDate_cases parse (getCell r date_column) with ⟨d, hd⟩ | hn
    · simp only [recentB, archiveB, unparseB, hd, dateGE, dateLT, isNaT,
        decide_eq_true_eq, Bool.false_eq_true, and_false, not_false_eq_true,
        and_true]
      omega
    · simp [recentB, archiveB, unparseB, hn, dateGE, dateLT, isNaT]

/-- C2 witness: the partition statement evaluated on a concrete record
set with a recent, an old and an unparseable date, at reference date 21. -/
theorem time_window_filters_partition_rows_witness :
    ((filter_last_8_days sampleParse dfDates "Ticket Creation Date" 21).1).rows
        = (dfDates.rows.filter (recentB sampleParse "Ticket Creation Date" 21)).map
            (mapColRow "Ticket Creation Date" (parseDate sampleParse))
    ∧ ((filter_before_last_8_days sampleParse dfDates "Ticket Creation Date" 21).1).rows
        = (dfDates.rows.filter (archiveB sampleParse "Ticket Creation Date" 21)).map
            (mapColRow "Ticket Creation Date" (parseDate sampleParse))
    ∧ ∀ r ∈ dfDates.rows,
        (recentB sampleParse "Ticket Creation Date" 21 r
          ∨ archiveB sampleParse "Ticket Creation Date" 21 r
          ∨ unparseB sampleParse "Ticket Creation Date" r)
        ∧ ¬(recentB sampleParse "Ticket Creation Date" 21 r
              ∧ archiveB sampleParse "Ticket Creation Date" 21 r)
        ∧ ¬(recentB sampleParse "Ticket Creation Date" 21 r
              ∧ unparseB sampleParse "Ticket Creation Date" r)
        ∧ ¬(archiveB sampleParse "Ticket Creation Date" 21 r
              ∧ unparseB sampleParse "Ticket Creation Date" r) :=
  time_window_filters_partition_rows sampleParse dfDates "Ticket Creation Date" 21
    (by decide)

/-! Claim C7: on a missing bot-identity column the partitioner returns
the `({}, [])` pair, not an empty partition map. -/

/-- C7: when the bot-identity column is absent, the partitioner
swallows the `ValueError` and returns the `({}, [])` tuple — which is a
different value from any partition map, in particular from the empty
one the specification promises.  This documents the code bug behind the
claim. -/
theorem split_missing_column_returns_pair (df : DataFrame) (bot_name_list : List String)
    (bot_name_column : String) (h : bot_name_column ∉ df.cols) :
    split_dataframe_by_bot_name df bot_name_list bot_name_column = .errPair
    ∧ ∀ m : Dict DataFrame, SplitResult.errPair ≠ SplitResult.map m := by
  constructor
  · simp [split_dataframe_by_bot_name, h]
  · intro m hcon
    exact SplitResult.noConfusion hcon

/-- C7 witness: the missing-column behaviour on a concrete record set
without a `Bot Name` column. -/
theorem split_missing_column_returns_pair_witness :
    split_dataframe_by_bot_name dfNoBot ["A"] "Bot Name" = .errPair
    ∧ ∀ m : Dict DataFrame, SplitResult.errPair ≠ SplitResult.map m :=
  split_missing_column_returns_pair dfNoBot ["A"] "Bot Name" (by decide)

/-! Claim C8: the concrete counting scenario. -/

/-- C8: on the partition map holding bot `A` with one closed and one
open email ticket, counting closed tickets for mode `Email` yields
exactly the one-entry table `total_Closed_ticket_A_Email = 1`. -/
theorem count_closed_email_scenario :
    count_tickets_for_unique_modes [("A", dfScenario)] ["A"] ["Email"] "Status" "Closed"
      = .ok [("total_Closed_ticket_A_Email", 1)] := by
  rfl

/-! Claim C9: the pipeline is a deterministic function of its input and
reference date. -/

/-- C9: two runs of the full aggregation pipeline (time-window filter,
bot partitioning and all four counting operations) over the same
unmodified input record set and the same reference date produce
identical count tables. -/
theorem pipeline_deterministic (parse : String → Option Int)
    (df1 df2 : DataFrame) (c1 c2 : Int) (hdf : df1 = df2) (hc : c1 = c2) :
    pipeline parse df1 c1 = pipeline parse df2 c2 := by
  rw [hdf, hc]

/-- C9 witness: the pipeline run twice on a concrete record set at
reference date 21 gives the same tables. -/
theorem pipeline_deterministic_witness :
    pipeline sampleParse dfDates 21 = pipeline sampleParse dfDates 21 :=
  pipeline_deterministic sampleParse dfDates dfDates 21 21 rfl rfl

/-! Claim C6: the bot partitioner produces one partition per listed
key, and rows land in exactly the partition of their bot-identity
value. -/

/-- Helper: inserting a key that is absent from a dictionary appends
its binding. -/
theorem dinsert_append_of_not_mem {α : Type} (m : Dict α) (k : String) (v : α)
    (h : ∀ p ∈ m, p.1 ≠ k) : dinsert m k v = m ++ [(k, v)] := by
  induction m with
  | nil => rfl
  | cons p rest ih =>
    simp only [dinsert, if_neg (h p (List.mem_cons_self _ _)), List.cons_append]
    rw [ih (fun q hq => h q (List.mem_cons_of_mem _ hq))]

/-- Helper: folding dictionary writes over pairwise-distinct fresh keys
builds the corresponding association list in order. -/
theorem foldl_dinsert_eq_map {α : Type} (f : String → α) :
    ∀ (keys : List String) (acc : Dict α), keys.Nodup →
      (∀ k ∈ keys, ∀ p ∈ acc, p.1 ≠ k) →
      keys.foldl (fun m k => dinsert m k (f k)) acc
        = acc ++ keys.map (fun k => (k, f k)) := by
  intro keys
  induction keys with
  | nil => intro acc _ _; simp
  | cons k0 rest ih =>
    intro acc hnd hfresh
    simp only [List.foldl_cons, List.map_cons]
    rw [dinsert_append_of_not_mem acc k0 (f k0)
      (fun p hp => hfresh k0 (List.mem_cons_self _ _) p hp)]
    rw [ih (acc ++ [(k0, f k0)]) (List.Nodup.of_cons hnd) ?_]
    · simp
    · intro k hk p hp
      rcases List.mem_append.mp hp with hpa | hps
      · exact hfresh k (List.mem_cons_of_mem _ hk) p hpa
      · have hp0 : p = (k0, f k0) := by simpa using hps
        subst hp0
        intro he
        have he2 : k0 = k := he
        exact (List.nodup_cons.mp hnd).1 (he2 ▸ hk)

/-- C6: when the bot-identity column exists and the listed keys are
pairwise distinct, the partitioner returns a map with exactly one entry
per listed key; every row whose bot-identity value is a listed key
belongs to exactly one entry's record set, and every other row belongs
to none. -/
theorem split_partitions_rows (df : DataFrame) (bot_name_list : List String)
    (bot_name_column : String) (h : bot_name_column ∈ df.cols)
    (hnd : bot_name_list.Nodup) :
    ∃ m, split_dataframe_by_bot_name df bot_name_list bot_name_column = .map m
      ∧ m.length = bot_name_list.length
      ∧ ∀ r ∈ df.rows,
          m.countP (fun p => decide (r ∈ p.2.rows))
            = if ∃ k ∈ bot_name_list, getCell r bot_name_column = .str k then 1 else 0 := by
  refine ⟨bot_name_list.map
    (fun k => (k, filterRows df (fun r => decide (getCell r bot_name_column = .str k)))), ?_, ?_, ?_⟩
  · simp only [split_dataframe_by_bot_name, if_pos h]
    rw [foldl_dinsert_eq_map _ bot_name_list [] hnd (by intro k _ p hp; cases hp)]
    simp
  · simp
  · intro r hr
    rw [List.countP_map]
    by_cases hex : ∃ k ∈ bot_name_list, getCell r bot_name_column = .str k
    · rw [if_pos hex]
      rcases hex with ⟨s, hs, hv⟩
      have hcongr : List.countP
          ((fun p : String × DataFrame => decide (r ∈ p.2.rows)) ∘
            (fun k => (k, filterRows df (fun rr => decide (getCell rr bot_name_column = .str k)))))
          bot_name_list = List.countP (fun k => k == s) bot_name_list := by
        apply List.countP_congr
        intro k _
        simp only [Function.comp_apply, filterRows, List.mem_filter, decide_eq_true_eq,
          beq_iff_eq]
        constructor
        · intro hh
          have := hh.2
          rw [hv] at this
          exact (Value.str.injEq _ _ ▸ this).symm
        · intro hh
          subst hh
          exact ⟨hr, hv⟩
      rw [hcongr]
      exact List.count_eq_one_of_mem hnd hs
    · rw [if_neg hex]
      rw [List.countP_eq_zero]
      intro k hk
      simp only [Function.comp_apply, filterRows, List.mem_filter, decide_eq_true_eq]
      intro hcon
      exact hex ⟨k, hk, hcon.2⟩

/-- C6 witness: the partitioner evaluated on a concrete record set with
bots `A` and `B` listed. -/
theorem split_partitions_rows_witness :
    ∃ m, split_dataframe_by_bot_name dfDates ["A", "B"] "Bot Name" = .map m
      ∧ m.length = (["A", "B"] : List String).length
      ∧ ∀ r ∈ dfDates.rows,
          m.countP (fun p => decide (r ∈ p.2.rows))
            = if ∃ k ∈ (["A", "B"] : List String), getCell r "Bot Name" = .str k then 1 else 0 :=
  split_partitions_rows dfDates ["A", "B"] "Bot Name" (by decide) (by decide)

/-! Unpacking the decidable side conditions. -/

theorem keysHaveCol_spec {d : Dict DataFrame} {keys : List String} {c : String}
    (h : keysHaveCol d keys c = true) :
    ∀ k ∈ keys, ∃ df, dlookup d k = some df ∧ c ∈ df.cols := by
  intro k hk
  rw [keysHaveCol, List.all_eq_true] at h
  have := h k hk
  cases hl : dlookup d k with
  | none => rw [hl] at this; cases this
  | some df =>
    rw [hl] at this
    exact ⟨df, rfl, of_decide_eq_true this⟩

theorem presentKeysHaveCol_spec {d : Dict DataFrame} {keys : List String} {c : String}
    (h : presentKeysHaveCol d keys c = true) :
    ∀ k ∈ keys, ∀ df, dlookup d k = some df → c ∈ df.cols := by
  intro k hk df hdf
  rw [presentKeysHaveCol, List.all_eq_true] at h
  have := h k hk
  rw [hdf] at this
  exact of_decide_eq_true this

theorem compInj_spec {keys values : List String}
    (h : compInj keys values = true) :
    ∀ k1 ∈ keys, ∀ v1 ∈ values, ∀ k2 ∈ keys, ∀ v2 ∈ values,
      k1 ++ "_" ++ v1 = k2 ++ "_" ++ v2 → k1 = k2 ∧ v1 = v2 := by
  intro k1 h1 v1 hv1 k2 h2 v2 hv2 he
  rw [compInj, List.all_eq_true] at h
  have h' := h k1 h1
  rw [List.all_eq_true] at h'
  have h'' := h' v1 hv1
  rw [List.all_eq_true] at h''
  have h3 := h'' k2 h2
  rw [List.all_eq_true] at h3
  exact of_decide_eq_true (h3 v2 hv2) he

theorem compInjStatus_spec {sv : String} {keys modes : List String}
    (h : compInjStatus sv keys modes = true) :
    ∀ k1 ∈ keys, ∀ v1 ∈ modes, ∀ k2 ∈ keys, ∀ v2 ∈ modes,
      "total_" ++ sv ++ "_ticket_" ++ k1 ++ "_" ++ v1
          = "total_" ++ sv ++ "_ticket_" ++ k2 ++ "_" ++ v2 → k1 = k2 ∧ v1 = v2 := by
  intro k1 h1 v1 hv1 k2 h2 v2 hv2 he
  rw [compInjStatus, List.all_eq_true] at h
  have h' := h k1 h1
  rw [List.all_eq_true] at h'
  have h'' := h' v1 hv1
  rw [List.all_eq_true] at h''
  have h3 := h'' k2 h2
  rw [List.all_eq_true] at h3
  exact of_decide_eq_true (h3 v2 hv2) he

/-! Lookup lemmas for the flat count `total_ticket_received_count`. -/

/-- Stability: folding further keys preserves an established entry as
long as every later write to the same composite key writes the same
count. -/
theorem ttrc_fold_stable (d : Dict DataFrame) (values : List String) (col c : String)
    (n : Nat) :
    ∀ (keys : List String) (acc : Dict Nat),
      (∀ k' ∈ keys, ∀ df', dlookup d k' = some df' → col ∈ df'.cols →
        ∀ v' ∈ values, k' ++ "_" ++ v' = c → countMatch df' col (.str v') = n) →
      dlookup acc c = some n →
      dlookup (keys.foldl (ttrc_step d values col) acc) c = some n := by
  intro keys
  induction keys with
  | nil => intro acc _ hm; exact hm
  | cons k1 rest ih =>
    intro acc hs hm
    simp only [List.foldl_cons]
    refine ih _ (fun k' hk' => hs k' (List.mem_cons_of_mem _ hk')) ?_
    cases hk : dlookup d k1 with
    | none => simpa only [ttrc_step, hk] using hm
    | some df =>
      simp only [ttrc_step, hk]
      by_cases hcol : col ∈ df.cols
      · rw [if_pos hcol]
        unfold ttrc_write
        refine dlookup_foldl_stable (fun v => k1 ++ "_" ++ v)
          (fun v => if countMatch df col (.str v) > 0 then countMatch df col (.str v) else 0)
          c n values acc ?_ hm
        intro v hv hcomp
        show (if countMatch df col (Value.str v) > 0 then countMatch df col (Value.str v) else 0) = n
        rw [clip_eq]
        exact hs k1 (List.mem_cons_self _ _) df hk hcol v hv hcomp
      · rw [if_neg hcol]; exact hm

/-- Establishment: once the listed key is processed, the composite
entry holds its count, and stays there. -/
theorem ttrc_fold_mem (d : Dict DataFrame) (values : List String) (col : String)
    (key : String) (df : DataFrame) (v : String) :
    ∀ (keys : List String) (acc : Dict Nat),
      key ∈ keys → dlookup d key = some df → col ∈ df.cols → v ∈ values →
      (∀ k' ∈ keys, ∀ df', dlookup d k' = some df' → col ∈ df'.cols →
        ∀ v' ∈ values, k' ++ "_" ++ v' = key ++ "_" ++ v →
          countMatch df' col (.str v') = countMatch df col (.str v)) →
      dlookup (keys.foldl (ttrc_step d values col) acc) (key ++ "_" ++ v)
        = some (countMatch df col (.str v)) := by
  intro keys
  induction keys with
  | nil => intro acc hmem; cases hmem
  | cons k1 rest ih =>
    intro acc hmem hk hcol hv hs
    simp only [List.foldl_cons]
    by_cases hk1 : k1 = key
    · subst hk1
      refine ttrc_fold_stable d values col _ _ rest _
        (fun k' hk' => hs k' (List.mem_cons_of_mem _ hk')) ?_
      simp only [ttrc_step, hk, if_pos hcol]
      unfold ttrc_write
      refine dlookup_foldl_mem (fun v' => k1 ++ "_" ++ v')
        (fun v' => if countMatch df col (.str v') > 0 then countMatch df col (.str v') else 0)
        (k1 ++ "_" ++ v) (countMatch df col (.str v)) v values acc hv rfl (clip_eq _) ?_
      intro v' hv' hcomp
      show (if countMatch df col (Value.str v') > 0 then countMatch df col (Value.str v') else 0)
        = countMatch df col (Value.str v)
      rw [clip_eq]
      exact hs k1 (List.mem_cons_self _ _) df hk hcol v' hv' hcomp
    · have hmem' : key ∈ rest := by
        rcases List.mem_cons.mp hmem with he | hr
        · exact absurd he.symm hk1
        · exact hr
      exact ih _ hmem' hk hcol hv (fun k' hk' => hs k' (List.mem_cons_of_mem _ hk'))

/-! Lookup lemmas for the nested count
`total_ticket_received_count_modewise`. -/

/-- Updating a stored value never changes which keys are present. -/
theorem dlookup_dupdate_isSome {α : Type} (m : Dict α) (k : String) (f : α → α)
    (k2 : String) :
    (dlookup (dupdate m k f) k2).isSome = (dlookup m k2).isSome := by
  rw [dlookup_dupdate]
  by_cases h : k2 = k
  · rw [if_pos h, h]
    cases dlookup m k <;> rfl
  · rw [if_neg h]

/-- Unfolding the inner value loop of the nested count one step. -/
theorem mw_write_cons (df : DataFrame) (col key v1 : String) (rest : List String)
    (acc : Dict (Dict Nat)) :
    mw_write df col key (v1 :: rest) acc
      = mw_write df col key rest
          (if countMatch df col (.str v1) = 0 then
            dupdate (dupdate acc v1 (fun inner => dinsert inner key (countMatch df col (.str v1))))
              v1 (fun inner => dinsert inner key 0)
           else dupdate acc v1 (fun inner => dinsert inner key (countMatch df col (.str v1)))) :=
  rfl

/-- The initialisation loop `{value: {} for value in comparison_values}`
makes every listed value present. -/
theorem dlookup_init_isSome (v : String) :
    ∀ (values : List String) (acc : Dict (Dict Nat)),
      (v ∈ values ∨ (dlookup acc v).isSome) →
      (dlookup (values.foldl (fun m w => dinsert m w []) acc) v).isSome := by
  intro values
  induction values with
  | nil =>
    intro acc h
    rcases h with h | h
    · cases h
    · exact h
  | cons w rest ih =>
    intro acc h
    simp only [List.foldl_cons]
    apply ih
    by_cases hw : v = w
    · right
      rw [dlookup_dinsert, if_pos hw]
      rfl
    · rcases h with h | h
      · rcases List.mem_cons.mp h with he | hr
        · exact absurd he hw
        · exact Or.inl hr
      · right
        rw [dlookup_dinsert, if_neg hw]
        exact h

/-- The inner value loop of the nested count never changes which outer
keys are present. -/
theorem mw_write_isSome (df : DataFrame) (col key : String) (v2 : String) :
    ∀ (values : List String) (acc : Dict (Dict Nat)),
      (dlookup acc v2).isSome →
      (dlookup (mw_write df col key values acc) v2).isSome := by
  intro values
  induction values with
  | nil => intro acc h; exact h
  | cons v1 rest ih =>
    intro acc h
    rw [mw_write_cons]
    refine ih _ ?_
    by_cases hc0 : countMatch df col (.str v1) = 0
    · rw [if_pos hc0, dlookup_dupdate_isSome, dlookup_dupdate_isSome]
      exact h
    · rw [if_neg hc0, dlookup_dupdate_isSome]
      exact h

/-- Stability of an established nested entry under the inner value
loop: a later write touches the entry only when it is for the same
outer value and the same bot key, and then it writes the same count. -/
theorem mw_write_Qstable (df' : DataFrame) (col k' : String) (v key : String) (n : Nat)
    (hcond : k' = key → countMatch df' col (.str v) = n) :
    ∀ (values : List String) (acc : Dict (Dict Nat)),
      (∃ inner, dlookup acc v = some inner ∧ dlookup inner key = some n) →
      ∃ inner, dlookup (mw_write df' col k' values acc) v = some inner
        ∧ dlookup inner key = some n := by
  intro values
  induction values with
  | nil => intro acc h; exact h
  | cons v1 rest ih =>
    intro acc h
    rcases h with ⟨inner, hai, hik⟩
    rw [mw_write_cons]
    apply ih
    by_cases hv1 : v = v1
    · subst hv1
      have hkey : ∀ c2 : Nat, (key = k' → c2 = n) →
          dlookup (dinsert inner k' c2) key = some n := by
        intro c2 hc2
        rw [dlookup_dinsert]
        by_cases hkk : key = k'
        · rw [if_pos hkk, hc2 hkk]
        · rw [if_neg hkk]; exact hik
      by_cases hc0 : countMatch df' col (.str v) = 0
      · refine ⟨dinsert (dinsert inner k' (countMatch df' col (.str v))) k' 0, ?_, ?_⟩
        · rw [if_pos hc0, dlookup_dupdate, if_pos rfl, dlookup_dupdate, if_pos rfl, hai]
          rfl
        · rw [dlookup_dinsert]
          by_cases hkk : key = k'
          · rw [if_pos hkk]
            have hn0 : (0 : Nat) = n := by
              have := hcond hkk.symm
              omega
            rw [hn0]
          · rw [if_neg hkk]
            have h1 := hkey (countMatch df' col (.str v)) (fun he => hcond he.symm)
            rw [dlookup_dinsert, if_neg hkk] at h1
            rw [dlookup_dinsert, if_neg hkk]
            exact h1
      · refine ⟨dinsert inner k' (countMatch df' col (.str v)), ?_, ?_⟩
        · rw [if_neg hc0, dlookup_dupdate, if_pos rfl, hai]
          rfl
        · exact hkey _ (fun he => hcond he.symm)
    · by_cases hc0 : countMatch df' col (.str v1) = 0
      · refine ⟨inner, ?_, hik⟩
        rw [if_pos hc0, dlookup_dupdate, if_neg hv1, dlookup_dupdate, if_neg hv1]
        exact hai
      · refine ⟨inner, ?_, hik⟩
        rw [if_neg hc0, dlookup_dupdate, if_neg hv1]
        exact hai

/-- Establishment: the inner value loop for a processed key writes that
key's count into the inner dictionary of every listed value. -/
theorem mw_write_establish (df : DataFrame) (col key : String) (v : String) :
    ∀ (values : List String) (acc : Dict (Dict Nat)),
      v ∈ values → (dlookup acc v).isSome →
      ∃ inner, dlookup (mw_write df col key values acc) v = some inner
        ∧ dlookup inner key = some (countMatch df col (.str v)) := by
  intro values
  induction values with
  | nil => intro acc hmem; cases hmem
  | cons v1 rest ih =>
    intro acc hmem hsome
    rw [mw_write_cons]
    by_cases hv1 : v1 = v
    · subst hv1
      rcases Option.isSome_iff_exists.mp hsome with ⟨inner0, h0⟩
      refine mw_write_Qstable df col key v1 key _ (fun _ => rfl) rest _ ?_
      by_cases hc0 : countMatch df col (.str v1) = 0
      · refine ⟨dinsert (dinsert inner0 key (countMatch df col (.str v1))) key 0, ?_, ?_⟩
        · rw [if_pos hc0, dlookup_dupdate, if_pos rfl, dlookup_dupdate, if_pos rfl, h0]
          rfl
        · rw [dlookup_dinsert, if_pos rfl, hc0]
      · refine ⟨dinsert inner0 key (countMatch df col (.str v1)), ?_, ?_⟩
        · rw [if_neg hc0, dlookup_dupdate, if_pos rfl, h0]
          rfl
        · rw [dlookup_dinsert, if_pos rfl]
    · have hmem' : v ∈ rest := by
        rcases List.mem_cons.mp hmem with he | hr
        · exact absurd he.symm hv1
        · exact hr
      refine ih _ hmem' ?_
      by_cases hc0 : countMatch df col (.str v1) = 0
      · rw [if_pos hc0, dlookup_dupdate_isSome, dlookup_dupdate_isSome]
        exact hsome
      · rw [if_neg hc0, dlookup_dupdate_isSome]
        exact hsome

/-- One key iteration of the nested count never changes which outer
keys are present. -/
theorem mw_step_isSome (d : Dict DataFrame) (values : List String) (col : String)
    (v2 : String) (acc : Dict (Dict Nat)) (k1 : String)
    (h : (dlookup acc v2).isSome) :
    (dlookup (mw_step d values col acc k1) v2).isSome := by
  cases hk : dlookup d k1 with
  | none => simpa only [mw_step, hk] using h
  | some df1 =>
    simp only [mw_step, hk]
    by_cases hcol : col ∈ df1.cols
    · rw [if_pos hcol]
      exact mw_write_isSome df1 col k1 v2 values acc h
    · rw [if_neg hcol]; exact h

/-- Stability of an established nested entry under further key
iterations. -/
theorem mw_fold_stable (d : Dict DataFrame) (values : List String) (col : String)
    (v key : String) (df : DataFrame) (n : Nat)
    (hk : dlookup d key = some df) (hn : countMatch df col (.str v) = n) :
    ∀ (keys : List String) (acc : Dict (Dict Nat)),
      (∃ inner, dlookup acc v = some inner ∧ dlookup inner key = some n) →
      ∃ inner, dlookup (keys.foldl (mw_step d values col) acc) v = some inner
        ∧ dlookup inner key = some n := by
  intro keys
  induction keys with
  | nil => intro acc h; exact h
  | cons k1 rest ih =>
    intro acc h
    simp only [List.foldl_cons]
    apply ih
    cases hk1 : dlookup d k1 with
    | none => simpa only [mw_step, hk1] using h
    | some df1 =>
      simp only [mw_step, hk1]
      by_cases hcol : col ∈ df1.cols
      · rw [if_pos hcol]
        refine mw_write_Qstable df1 col k1 v key n ?_ values acc h
        intro he
        subst he
        rw [hk] at hk1
        cases hk1
        exact hn
      · rw [if_neg hcol]; exact h

/-- Establishment over the key loop: once the listed key (present, with
the counted column) is processed, the nested entry `[value][key]` holds
its count and keeps it. -/
theorem mw_fold_mem (d : Dict DataFrame) (values : List String) (col : String)
    (key : String) (df : DataFrame) (v : String)
    (hk : dlookup d key = some df) (hcol : col ∈ df.cols) (hv : v ∈ values) :
    ∀ (keys : List String) (acc : Dict (Dict Nat)),
      key ∈ keys → (dlookup acc v).isSome →
      ∃ inner, dlookup (keys.foldl (mw_step d values col) acc) v = some inner
        ∧ dlookup inner key = some (countMatch df col (.str v)) := by
  intro keys
  induction keys with
  | nil => intro acc hmem; cases hmem
  | cons k1 rest ih =>
    intro acc hmem hsome
    simp only [List.foldl_cons]
    by_cases hk1 : k1 = key
    · subst hk1
      have hQ : ∃ inner, dlookup (mw_step d values col acc k1) v = some inner
          ∧ dlookup inner k1 = some (countMatch df col (.str v)) := by
        simp only [mw_step, hk, if_pos hcol]
        exact mw_write_establish df col k1 v values acc hv hsome
      exact mw_fold_stable d values col v k1 df _ hk rfl rest _ hQ
    · have hmem' : key ∈ rest := by
        rcases List.mem_cons.mp hmem with he | hr
        · exact absurd he.symm hk1
        · exact hr
      exact ih _ hmem' (mw_step_isSome d values col v acc k1 hsome)

/-! Claim C1: requested (key, value) combinations are never absent, and
hold 0 when no row matches — amended with the composite-key proviso. -/

/-- C1 (amended): when every listed key is present in the map with the
counted column, and distinct requested (key, value) pairs have distinct
composite strings, both counting operations hold an entry for every
requested combination equal to that pair's own row count — in
particular the entry exists and is 0 exactly when no row of that key's
record set has the value; a requested combination is never absent.  The
composite-key proviso is forced by the collision counterexample. -/
theorem received_counts_zero_filled (d : Dict DataFrame) (keys values : List String)
    (col key v : String) (df : DataFrame)
    (hall : keysHaveCol d keys col = true)
    (hinj : compInj keys values = true)
    (hkmem : key ∈ keys) (hk : dlookup d key = some df) (hv : v ∈ values) :
    dlookup (total_ticket_received_count d keys values col) (key ++ "_" ++ v)
        = some (countMatch df col (.str v))
    ∧ (countMatch df col (.str v) = 0 →
        dlookup (total_ticket_received_count d keys values col) (key ++ "_" ++ v) = some 0)
    ∧ ∃ inner,
        dlookup (total_ticket_received_count_modewise d keys values col) v = some inner
        ∧ dlookup inner key = some (countMatch df col (.str v)) := by
  have hcol : col ∈ df.cols := by
    rcases keysHaveCol_spec hall key hkmem with ⟨df', hdf', hcol'⟩
    rw [hk] at hdf'
    cases hdf'
    exact hcol'
  have hflat : dlookup (total_ticket_received_count d keys values col) (key ++ "_" ++ v)
      = some (countMatch df col (.str v)) := by
    unfold total_ticket_received_count
    apply ttrc_fold_mem d values col key df v keys [] hkmem hk hcol hv
    intro k' hk' df' hdf' hcol' v' hv' hcomp
    rcases compInj_spec hinj k' hk' v' hv' key hkmem v hv hcomp with ⟨hke, hve⟩
    subst hke
    subst hve
    rw [hk] at hdf'
    cases hdf'
    rfl
  refine ⟨hflat, fun h0 => by rw [hflat, h0], ?_⟩
  unfold total_ticket_received_count_modewise
  exact mw_fold_mem d values col key df v hk hcol hv keys _ hkmem
    (dlookup_init_isSome v values [] (Or.inl hv))

/-- C1 counterexample: on the collision map, every listed key is
present with the `Mode` column, bot `A` has no `B_C` row, yet the entry
at the composite key `"A" ++ "_" ++ "B_C"` is 1 (overwritten by the
colliding pair `("A_B", "C")`), not the promised 0. -/
theorem received_counts_zero_filled_cex :
    keysHaveCol collisionMap ["A", "A_B"] "Mode" = true
    ∧ dlookup collisionMap "A" = some dfModeX
    ∧ countMatch dfModeX "Mode" (.str "B_C") = 0
    ∧ dlookup (total_ticket_received_count collisionMap ["A", "A_B"] ["B_C", "C"] "Mode")
        ("A" ++ "_" ++ "B_C") ≠ some 0 := by
  decide

/-- C1 witness: the amended statement applied to a collision-free
concrete map, showing the explicit zero entry for the rowless `Phone`
mode. -/
theorem received_counts_zero_filled_witness :
    dlookup (total_ticket_received_count [("A", dfScenario)] ["A"] ["Email", "Phone"] "Mode")
        ("A" ++ "_" ++ "Phone") = some (countMatch dfScenario "Mode" (.str "Phone"))
    ∧ (countMatch dfScenario "Mode" (.str "Phone") = 0 →
        dlookup (total_ticket_received_count [("A", dfScenario)] ["A"] ["Email", "Phone"] "Mode")
          ("A" ++ "_" ++ "Phone") = some 0)
    ∧ ∃ inner,
        dlookup (total_ticket_received_count_modewise [("A", dfScenario)] ["A"] ["Email", "Phone"] "Mode")
            "Phone" = some inner
        ∧ dlookup inner "A" = some (countMatch dfScenario "Mode" (.str "Phone")) :=
  received_counts_zero_filled [("A", dfScenario)] ["A"] ["Email", "Phone"] "Mode" "A" "Phone"
    dfScenario (by decide) (by decide) (by decide) (by decide) (by decide)

/-! Claim C3: the nested count is the transpose of the flat count —
amended with the composite-key proviso. -/

/-- C3 (amended): for a listed key present in the map whose record set
has the counted column, and any listed value, the nested entry
`[value][key]` and the flat entry at `key ++ "_" ++ value` are the same
count — provided distinct requested pairs have distinct composite
strings (forced by the collision counterexample). -/
theorem modewise_is_transpose (d : Dict DataFrame) (keys values : List String)
    (col key v : String) (df : DataFrame)
    (hinj : compInj keys values = true)
    (hkmem : key ∈ keys) (hk : dlookup d key = some df)
    (hcol : col ∈ df.cols) (hv : v ∈ values) :
    ∃ n, dlookup (total_ticket_received_count d keys values col) (key ++ "_" ++ v) = some n
      ∧ ∃ inner,
          dlookup (total_ticket_received_count_modewise d keys values col) v = some inner
          ∧ dlookup inner key = some n := by
  refine ⟨countMatch df col (.str v), ?_, ?_⟩
  · unfold total_ticket_received_count
    apply ttrc_fold_mem d values col key df v keys [] hkmem hk hcol hv
    intro k' hk' df' hdf' hcol' v' hv' hcomp
    rcases compInj_spec hinj k' hk' v' hv' key hkmem v hv hcomp with ⟨hke, hve⟩
    subst hke
    subst hve
    rw [hk] at hdf'
    cases hdf'
    rfl
  · unfold total_ticket_received_count_modewise
    exact mw_fold_mem d values col key df v hk hcol hv keys _ hkmem
      (dlookup_init_isSome v values [] (Or.inl hv))

/-- C3 counterexample: on the collision map the nested entry
`[B_C][A]` is 0 but the flat entry at `"A" ++ "_" ++ "B_C"` is 1, so
the transpose relation fails as universally stated. -/
theorem modewise_is_transpose_cex :
    (dlookup (total_ticket_received_count_modewise collisionMap ["A", "A_B"] ["B_C", "C"] "Mode")
        "B_C").bind (fun inner => dlookup inner "A")
      ≠ dlookup (total_ticket_received_count collisionMap ["A", "A_B"] ["B_C", "C"] "Mode")
          ("A" ++ "_" ++ "B_C") := by
  decide

/-- C3 witness: the transpose relation on a collision-free concrete
map. -/
theorem modewise_is_transpose_witness :
    ∃ n, dlookup (total_ticket_received_count [("A", dfScenario)] ["A"] ["Email", "Phone"] "Mode")
        ("A" ++ "_" ++ "Email") = some n
      ∧ ∃ inner,
          dlookup (total_ticket_received_count_modewise [("A", dfScenario)] ["A"] ["Email", "Phone"] "Mode")
              "Email" = some inner
          ∧ dlookup inner "A" = some n :=
  modewise_is_transpose [("A", dfScenario)] ["A"] ["Email", "Phone"] "Mode" "A" "Email"
    dfScenario (by decide) (by decide) (by decide) (by decide) (by decide)

/-! Lemmas for the two status-filtered counting operations. -/

theorem presentKeysHaveStatusMode_spec {d : Dict DataFrame} {keys : List String}
    {sc : String} (h : presentKeysHaveStatusMode d keys sc = true) :
    ∀ k ∈ keys, ∀ df, dlookup d k = some df → sc ∈ df.cols ∧ "Mode" ∈ df.cols := by
  intro k hk df hdf
  rw [presentKeysHaveStatusMode, List.all_eq_true] at h
  have := h k hk
  rw [hdf] at this
  rcases Bool.and_eq_true_iff.mp this with ⟨h1, h2⟩
  exact ⟨of_decide_eq_true h1, of_decide_eq_true h2⟩

/-- The mode-summing generator evaluates to the sum of the per-mode
counts when the `Mode` column is present. -/
theorem cbwst_sum_ok (filtered : DataFrame) (hm : "Mode" ∈ filtered.cols) :
    ∀ modes : List String,
      cbwst_sum filtered modes
        = .ok ((modes.map (fun m => countMatch filtered "Mode" (.str m))).sum) := by
  intro modes
  induction modes with
  | nil => rfl
  | cons m rest ih =>
    simp only [cbwst_sum, if_pos hm, ih, List.map_cons, List.sum_cons]

/-- Unfolding the mode loop of `count_tickets_for_unique_modes` one
step when the `Mode` column is present. -/
theorem ctfum_write_ok (filtered : DataFrame) (sv key : String)
    (hm : "Mode" ∈ filtered.cols) :
    ∀ (modes : List String) (acc : Dict Nat),
      ctfum_write filtered sv key modes acc
        = .ok (modes.foldl
            (fun a mode =>
              dinsert a ("total_" ++ sv ++ "_ticket_" ++ key ++ "_" ++ mode)
                (if countMatch filtered "Mode" (.str mode) > 0
                 then countMatch filtered "Mode" (.str mode) else 0))
            acc) := by
  intro modes
  induction modes with
  | nil => intro acc; rfl
  | cons m rest ih =>
    intro acc
    have hstep : ctfum_write filtered sv key (m :: rest) acc
        = ctfum_write filtered sv key rest
            (dinsert acc ("total_" ++ sv ++ "_ticket_" ++ key ++ "_" ++ m)
              (if countMatch filtered "Mode" (.str m) > 0
               then countMatch filtered "Mode" (.str m) else 0)) := by
      show (if "Mode" ∈ filtered.cols then
              pure (dinsert acc ("total_" ++ sv ++ "_ticket_" ++ key ++ "_" ++ m)
                (if countMatch filtered "Mode" (.str m) > 0
                 then countMatch filtered "Mode" (.str m) else 0))
            else (.error "KeyError" : Except String (Dict Nat)))
          >>= (fun a => ctfum_write filtered sv key rest a)
          = ctfum_write filtered sv key rest
              (dinsert acc ("total_" ++ sv ++ "_ticket_" ++ key ++ "_" ++ m)
                (if countMatch filtered "Mode" (.str m) > 0
                 then countMatch filtered "Mode" (.str m) else 0))
      rw [if_pos hm]
      rfl
    rw [hstep, ih, List.foldl_cons]

/-- The mode loop raises `KeyError` on its first iteration when the
`Mode` column is missing. -/
theorem ctfum_write_error (filtered : DataFrame) (sv key : String)
    (hm : "Mode" ∉ filtered.cols) (m : String) (rest : List String) (acc : Dict Nat) :
    ctfum_write filtered sv key (m :: rest) acc = .error "KeyError" := by
  show (if "Mode" ∈ filtered.cols then
          pure (dinsert acc ("total_" ++ sv ++ "_ticket_" ++ key ++ "_" ++ m)
            (if countMatch filtered "Mode" (.str m) > 0
             then countMatch filtered "Mode" (.str m) else 0))
        else (.error "KeyError" : Except String (Dict Nat)))
      >>= (fun a => ctfum_write filtered sv key rest a)
      = .error "KeyError"
  rw [if_neg hm]
  rfl

/-- When every present listed key has the status and `Mode` columns,
`count_tickets_for_unique_modes` succeeds and computes the pure fold of
its successful-path steps. -/
theorem ctfum_eq_ok (d : Dict DataFrame) (modes : List String) (sc sv : String) :
    ∀ (keys : List String) (acc : Dict Nat),
      (∀ k ∈ keys, ∀ df, dlookup d k = some df → sc ∈ df.cols ∧ "Mode" ∈ df.cols) →
      keys.foldlM (ctfum_step d modes sc sv) acc
        = .ok (keys.foldl (ctfum_stepP d modes sc sv) acc) := by
  intro keys
  induction keys with
  | nil => intro acc _; rfl
  | cons k1 rest ih =>
    intro acc hcols
    have hbind : (k1 :: rest).foldlM (ctfum_step d modes sc sv) acc
        = ctfum_step d modes sc sv acc k1
            >>= (fun a => rest.foldlM (ctfum_step d modes sc sv) a) := rfl
    rw [hbind, List.foldl_cons]
    cases hk : dlookup d k1 with
    | none =>
      have hstep : ctfum_step d modes sc sv acc k1 = pure acc := by
        simp [ctfum_step, hk]
      have hstepP : ctfum_stepP d modes sc sv acc k1 = acc := by
        simp [ctfum_stepP, hk]
      rw [hstep, hstepP]
      exact ih acc (fun k hkm => hcols k (List.mem_cons_of_mem _ hkm))
    | some df =>
      rcases hcols k1 (List.mem_cons_self _ _) df hk with ⟨hsc, hmode⟩
      have hstep : ctfum_step d modes sc sv acc k1
          = .ok (ctfum_stepP d modes sc sv acc k1) := by
        simp only [ctfum_step, ctfum_stepP, hk, if_pos hsc]
        exact ctfum_write_ok (filterRows df (fun r => decide (getCell r sc = Value.str sv)))
          sv k1 hmode modes acc
      rw [hstep]
      exact ih _ (fun k hkm => hcols k (List.mem_cons_of_mem _ hkm))

/-- When every present listed key has the status and `Mode` columns,
`count_bot_wise_status_tickets` succeeds and computes the pure fold of
its successful-path steps. -/
theorem cbwst_eq_ok (d : Dict DataFrame) (modes : List String) (sc sv : String) :
    ∀ (keys : List String) (acc : Dict Nat),
      (∀ k ∈ keys, ∀ df, dlookup d k = some df → sc ∈ df.cols ∧ "Mode" ∈ df.cols) →
      keys.foldlM (cbwst_step d modes sc sv) acc
        = .ok (keys.foldl (cbwst_stepP d modes sc sv) acc) := by
  intro keys
  induction keys with
  | nil => intro acc _; rfl
  | cons k1 rest ih =>
    intro acc hcols
    have hbind : (k1 :: rest).foldlM (cbwst_step d modes sc sv) acc
        = cbwst_step d modes sc sv acc k1
            >>= (fun a => rest.foldlM (cbwst_step d modes sc sv) a) := rfl
    rw [hbind, List.foldl_cons]
    cases hk : dlookup d k1 with
    | none =>
      have hstep : cbwst_step d modes sc sv acc k1 = pure acc := by
        simp [cbwst_step, hk]
      have hstepP : cbwst_stepP d modes sc sv acc k1 = acc := by
        simp [cbwst_stepP, hk]
      rw [hstep, hstepP]
      exact ih acc (fun k hkm => hcols k (List.mem_cons_of_mem _ hkm))
    | some df =>
      rcases hcols k1 (List.mem_cons_self _ _) df hk with ⟨hsc, hmode⟩
      have hstep : cbwst_step d modes sc sv acc k1
          = .ok (cbwst_stepP d modes sc sv acc k1) := by
        simp only [cbwst_step, cbwst_stepP, hk, if_pos hsc]
        rw [cbwst_sum_ok (filterRows df (fun r => decide (getCell r sc = Value.str sv)))
          hmode modes]
        rfl
      rw [hstep]
      exact ih _ (fun k hkm => hcols k (List.mem_cons_of_mem _ hkm))

/-- Stability for the flat status-filtered count: later writes to the
same composite key write the same count. -/
theorem ctfum_fold_stable (d : Dict DataFrame) (modes : List String) (sc sv c : String)
    (n : Nat) :
    ∀ (keys : List String) (acc : Dict Nat),
      (∀ k' ∈ keys, ∀ df', dlookup d k' = some df' → ∀ m' ∈ modes,
        "total_" ++ sv ++ "_ticket_" ++ k' ++ "_" ++ m' = c →
        countMatch (filterRows df' (fun r => decide (getCell r sc = .str sv)))
          "Mode" (.str m') = n) →
      dlookup acc c = some n →
      dlookup (keys.foldl (ctfum_stepP d modes sc sv) acc) c = some n := by
  intro keys
  induction keys with
  | nil => intro acc _ hm; exact hm
  | cons k1 rest ih =>
    intro acc hs hm
    simp only [List.foldl_cons]
    refine ih _ (fun k' hk' => hs k' (List.mem_cons_of_mem _ hk')) ?_
    cases hk : dlookup d k1 with
    | none => simpa only [ctfum_stepP, hk] using hm
    | some df =>
      simp only [ctfum_stepP, hk]
      refine dlookup_foldl_stable
        (fun m => "total_" ++ sv ++ "_ticket_" ++ k1 ++ "_" ++ m)
        (fun m => if countMatch (filterRows df (fun r => decide (getCell r sc = .str sv)))
              "Mode" (.str m) > 0
            then countMatch (filterRows df (fun r => decide (getCell r sc = .str sv)))
              "Mode" (.str m) else 0)
        c n modes acc ?_ hm
      intro m hmm hcomp
      show (if countMatch (filterRows df (fun r => decide (getCell r sc = .str sv)))
              "Mode" (.str m) > 0
            then countMatch (filterRows df (fun r => decide (getCell r sc = .str sv)))
              "Mode" (.str m) else 0) = n
      rw [clip_eq]
      exact hs k1 (List.mem_cons_self _ _) df hk m hmm hcomp

/-- Establishment for the flat status-filtered count: a processed
(key, mode) pair's composite entry holds its count and keeps it. -/
theorem ctfum_fold_mem (d : Dict DataFrame) (modes : List String) (sc sv : String)
    (key : String) (df : DataFrame) (mo : String) :
    ∀ (keys : List String) (acc : Dict Nat),
      key ∈ keys → dlookup d key = some df → mo ∈ modes →
      (∀ k' ∈ keys, ∀ df', dlookup d k' = some df' → ∀ m' ∈ modes,
        "total_" ++ sv ++ "_ticket_" ++ k' ++ "_" ++ m'
            = "total_" ++ sv ++ "_ticket_" ++ key ++ "_" ++ mo →
        countMatch (filterRows df' (fun r => decide (getCell r sc = .str sv)))
            "Mode" (.str m')
          = countMatch (filterRows df (fun r => decide (getCell r sc = .str sv)))
            "Mode" (.str mo)) →
      dlookup (keys.foldl (ctfum_stepP d modes sc sv) acc)
          ("total_" ++ sv ++ "_ticket_" ++ key ++ "_" ++ mo)
        = some (countMatch (filterRows df (fun r => decide (getCell r sc = .str sv)))
            "Mode" (.str mo)) := by
  intro keys
  induction keys with
  | nil => intro acc hmem; cases hmem
  | cons k1 rest ih =>
    intro acc hmem hk hmo hs
    simp only [List.foldl_cons]
    by_cases hk1 : k1 = key
    · subst hk1
      refine ctfum_fold_stable d modes sc sv _ _ rest _
        (fun k' hk' => hs k' (List.mem_cons_of_mem _ hk')) ?_
      simp only [ctfum_stepP, hk]
      refine dlookup_foldl_mem
        (fun m => "total_" ++ sv ++ "_ticket_" ++ k1 ++ "_" ++ m)
        (fun m => if countMatch (filterRows df (fun r => decide (getCell r sc = .str sv)))
              "Mode" (.str m) > 0
            then countMatch (filterRows df (fun r => decide (getCell r sc = .str sv)))
              "Mode" (.str m) else 0)
        ("total_" ++ sv ++ "_ticket_" ++ k1 ++ "_" ++ mo)
        (countMatch (filterRows df (fun r => decide (getCell r sc = .str sv)))
          "Mode" (.str mo))
        mo modes acc hmo rfl (clip_eq _) ?_
      intro m' hm' hcomp
      show (if countMatch (filterRows df (fun r => decide (getCell r sc = .str sv)))
              "Mode" (.str m') > 0
            then countMatch (filterRows df (fun r => decide (getCell r sc = .str sv)))
              "Mode" (.str m') else 0)
          = countMatch (filterRows df (fun r => decide (getCell r sc = .str sv)))
            "Mode" (.str mo)
      rw [clip_eq]
      exact hs k1 (List.mem_cons_self _ _) df hk m' hm' hcomp
    · have hmem' : key ∈ rest := by
        rcases List.mem_cons.mp hmem with he | hr
        · exact absurd he.symm hk1
        · exact hr
      exact ih _ hmem' hk hmo (fun k' hk' => hs k' (List.mem_cons_of_mem _ hk'))

/-- Stability for the per-bot total: later writes to the same bot key
re-derive the same sum from the same stored record set. -/
theorem cbwst_fold_stable (d : Dict DataFrame) (modes : List String) (sc sv : String)
    (key : String) (n : Nat)
    (hcond : ∀ df', dlookup d key = some df' →
      ((modes.map (fun m => countMatch
          (filterRows df' (fun r => decide (getCell r sc = .str sv)))
          "Mode" (.str m))).sum) = n) :
    ∀ (keys : List String) (acc : Dict Nat),
      dlookup acc key = some n →
      dlookup (keys.foldl (cbwst_stepP d modes sc sv) acc) key = some n := by
  intro keys
  induction keys with
  | nil => intro acc hm; exact hm
  | cons k1 rest ih =>
    intro acc hm
    simp only [List.foldl_cons]
    refine ih _ ?_
    cases hk : dlookup d k1 with
    | none => simpa only [cbwst_stepP, hk] using hm
    | some df1 =>
      simp only [cbwst_stepP, hk]
      rw [dlookup_dinsert]
      by_cases he : key = k1
      · rw [if_pos he]
        subst he
        rw [hcond df1 hk]
      · rw [if_neg he]
        exact hm

/-- Establishment for the per-bot total: a listed key present in the
map ends up holding the sum of its per-mode counts. -/
theorem cbwst_fold_mem (d : Dict DataFrame) (modes : List String) (sc sv : String)
    (key : String) (df : DataFrame) (hk : dlookup d key = some df) :
    ∀ (keys : List String) (acc : Dict Nat),
      key ∈ keys →
      dlookup (keys.foldl (cbwst_stepP d modes sc sv) acc) key
        = some ((modes.map (fun m => countMatch
            (filterRows df (fun r => decide (getCell r sc = .str sv)))
            "Mode" (.str m))).sum) := by
  intro keys
  induction keys with
  | nil => intro acc hmem; cases hmem
  | cons k1 rest ih =>
    intro acc hmem
    simp only [List.foldl_cons]
    by_cases hk1 : k1 = key
    · subst hk1
      refine cbwst_fold_stable d modes sc sv k1 _ ?_ rest _ ?_
      · intro df' hdf'
        rw [hk] at hdf'
        cases hdf'
        rfl
      · simp only [cbwst_stepP, hk]
        rw [dlookup_dinsert, if_pos rfl]
    · have hmem' : key ∈ rest := by
        rcases List.mem_cons.mp hmem with he | hr
        · exact absurd he.symm hk1
        · exact hr
      exact ih _ hmem'

/-! Claim C4: the per-bot totals are the mode-wise sums of the flat
status-filtered entries — amended with the column-presence and
composite-key provisos. -/

/-- C4 (amended): when every present listed key's record set has the
status column and the `Mode` column (so both operations succeed), the
mode list is pairwise distinct, and distinct (key, mode) pairs have
distinct composite strings (forced by the collision counterexample),
the per-bot total of `count_bot_wise_status_tickets` for each listed
present key equals the sum over the mode list of the corresponding
`total_{status}_ticket_{key}_{mode}` entries of
`count_tickets_for_unique_modes`: the operations differ only in whether
mode granularity is retained. -/
theorem bot_totals_sum_mode_entries (d : Dict DataFrame) (keys modes : List String)
    (sc sv key : String) (df : DataFrame)
    (hnd : modes.Nodup)
    (hcols : presentKeysHaveStatusMode d keys sc = true)
    (hinj : compInjStatus sv keys modes = true)
    (hkmem : key ∈ keys) (hk : dlookup d key = some df) :
    ∃ bw ft, count_bot_wise_status_tickets d keys modes sc sv = .ok bw
      ∧ count_tickets_for_unique_modes d keys modes sc sv = .ok ft
      ∧ dlookup bw key
          = some ((modes.map (fun m =>
              (dlookup ft ("total_" ++ sv ++ "_ticket_" ++ key ++ "_" ++ m)).getD 0)).sum) := by
  have hcols' := presentKeysHaveStatusMode_spec hcols
  refine ⟨keys.foldl (cbwst_stepP d modes sc sv) [],
          keys.foldl (ctfum_stepP d modes sc sv) [], ?_, ?_, ?_⟩
  · exact cbwst_eq_ok d modes sc sv keys [] hcols'
  · exact ctfum_eq_ok d modes sc sv keys [] hcols'
  · rw [cbwst_fold_mem d modes sc sv key df hk keys [] hkmem]
    congr 2
    apply List.map_congr_left
    intro m hm
    have hft : dlookup (keys.foldl (ctfum_stepP d modes sc sv) [])
        ("total_" ++ sv ++ "_ticket_" ++ key ++ "_" ++ m)
        = some (countMatch (filterRows df (fun r => decide (getCell r sc = .str sv)))
            "Mode" (.str m)) := by
      apply ctfum_fold_mem d modes sc sv key df m keys [] hkmem hk hm
      intro k' hk' df' hdf' m' hm' hcomp
      rcases compInjStatus_spec hinj k' hk' m' hm' key hkmem m hm hcomp with ⟨hke, hme⟩
      subst hke
      subst hme
      rw [hk] at hdf'
      cases hdf'
      rfl
    rw [hft]
    rfl

/-- C4 counterexample: on the status collision map the hypotheses of
the claim hold (distinct modes, all columns present), yet the per-bot
total for `A` is 1 while the mode-wise sum of its flat entries is 0,
because the colliding pair `("A_X", "Y")` overwrote the entry of
`("A", "X_Y")`. -/
theorem bot_totals_sum_mode_entries_cex :
    (["X_Y", "Y"] : List String).Nodup
    ∧ presentKeysHaveStatusMode collisionMap2 ["A", "A_X"] "Status" = true
    ∧ dlookup collisionMap2 "A" = some dfClosedXY
    ∧ ¬ (∀ bw ft,
          count_bot_wise_status_tickets collisionMap2 ["A", "A_X"] ["X_Y", "Y"]
              "Status" "Closed" = .ok bw →
          count_tickets_for_unique_modes collisionMap2 ["A", "A_X"] ["X_Y", "Y"]
              "Status" "Closed" = .ok ft →
          dlookup bw "A"
            = some (((["X_Y", "Y"] : List String).map (fun m =>
                (dlookup ft ("total_" ++ "Closed" ++ "_ticket_" ++ "A" ++ "_" ++ m)).getD 0)).sum)) := by
  refine ⟨by decide, by decide, by decide, ?_⟩
  intro h
  have h2 := h [("A", 1), ("A_X", 0)]
    [("total_Closed_ticket_A_X_Y", 0), ("total_Closed_ticket_A_Y", 0),
     ("total_Closed_ticket_A_X_X_Y", 0)]
    rfl rfl
  revert h2
  decide

/-- C4 witness: the amended statement applied to a collision-free
concrete map. -/
theorem bot_totals_sum_mode_entries_witness :
    ∃ bw ft, count_bot_wise_status_tickets [("A", dfScenario)] ["A"] ["Email", "Phone"]
          "Status" "Closed" = .ok bw
      ∧ count_tickets_for_unique_modes [("A", dfScenario)] ["A"] ["Email", "Phone"]
          "Status" "Closed" = .ok ft
      ∧ dlookup bw "A"
          = some (((["Email", "Phone"] : List String).map (fun m =>
              (dlookup ft ("total_" ++ "Closed" ++ "_ticket_" ++ "A" ++ "_" ++ m)).getD 0)).sum) :=
  bot_totals_sum_mode_entries [("A", dfScenario)] ["A"] ["Email", "Phone"] "Status" "Closed"
    "A" dfScenario (by decide) (by decide) (by decide) (by decide) (by decide)

/-! Claim C5: skip-versus-raise behaviour of the counting operations. -/

theorem presentKeys_cons (d : Dict DataFrame) (k1 : String) (rest : List String) :
    presentKeys d (k1 :: rest)
      = if (dlookup d k1).isSome then k1 :: presentKeys d rest else presentKeys d rest := by
  simp [presentKeys, List.filter_cons]

/-- Missing keys are skipped by the flat count: the result only
depends on the listed keys that are present in the map. -/
theorem ttrc_skip_absent (d : Dict DataFrame) (values : List String) (col : String) :
    ∀ (keys : List String) (acc : Dict Nat),
      keys.foldl (ttrc_step d values col) acc
        = (presentKeys d keys).foldl (ttrc_step d values col) acc := by
  intro keys
  induction keys with
  | nil => intro acc; rfl
  | cons k1 rest ih =>
    intro acc
    rw [presentKeys_cons]
    cases hk : dlookup d k1 with
    | none =>
      rw [if_neg (by exact Bool.false_ne_true)]
      simp only [List.foldl_cons]
      have hstep : ttrc_step d values col acc k1 = acc := by
        simp [ttrc_step, hk]
      rw [hstep]
      exact ih acc
    | some df =>
      rw [if_pos (by rfl)]
      simp only [List.foldl_cons]
      exact ih _

/-- Missing keys are skipped by the nested count. -/
theorem mw_skip_absent (d : Dict DataFrame) (values : List String) (col : String) :
    ∀ (keys : List String) (acc : Dict (Dict Nat)),
      keys.foldl (mw_step d values col) acc
        = (presentKeys d keys).foldl (mw_step d values col) acc := by
  intro keys
  induction keys with
  | nil => intro acc; rfl
  | cons k1 rest ih =>
    intro acc
    rw [presentKeys_cons]
    cases hk : dlookup d k1 with
    | none =>
      rw [if_neg (by exact Bool.false_ne_true)]
      simp only [List.foldl_cons]
      have hstep : mw_step d values col acc k1 = acc := by
        simp [mw_step, hk]
      rw [hstep]
      exact ih acc
    | some df =>
      rw [if_pos (by rfl)]
      simp only [List.foldl_cons]
      exact ih _

/-- Missing keys are skipped by the status-filtered per-mode count. -/
theorem ctfum_skip_absent (d : Dict DataFrame) (modes : List String) (sc sv : String) :
    ∀ (keys : List String) (acc : Dict Nat),
      keys.foldlM (ctfum_step d modes sc sv) acc
        = (presentKeys d keys).foldlM (ctfum_step d modes sc sv) acc := by
  intro keys
  induction keys with
  | nil => intro acc; rfl
  | cons k1 rest ih =>
    intro acc
    rw [presentKeys_cons]
    cases hk : dlookup d k1 with
    | none =>
      rw [if_neg (by exact Bool.false_ne_true)]
      have hL : (k1 :: rest).foldlM (ctfum_step d modes sc sv) acc
          = ctfum_step d modes sc sv acc k1
              >>= (fun a => rest.foldlM (ctfum_step d modes sc sv) a) := rfl
      rw [hL]
      have hstep : ctfum_step d modes sc sv acc k1 = pure acc := by
        simp [ctfum_step, hk]
      rw [hstep]
      show rest.foldlM (ctfum_step d modes sc sv) acc
        = (presentKeys d rest).foldlM (ctfum_step d modes sc sv) acc
      exact ih acc
    | some df =>
      rw [if_pos (by rfl)]
      have hL : (k1 :: rest).foldlM (ctfum_step d modes sc sv) acc
          = ctfum_step d modes sc sv acc k1
              >>= (fun a => rest.foldlM (ctfum_step d modes sc sv) a) := rfl
      have hR : (k1 :: presentKeys d rest).foldlM (ctfum_step d modes sc sv) acc
          = ctfum_step d modes sc sv acc k1
              >>= (fun a => (presentKeys d rest).foldlM (ctfum_step d modes sc sv) a) := rfl
      rw [hL, hR]
      cases hres : ctfum_step d modes sc sv acc k1 with
      | error e => rfl
      | ok acc2 =>
        show rest.foldlM (ctfum_step d modes sc sv) acc2
          = (presentKeys d rest).foldlM (ctfum_step d modes sc sv) acc2
        exact ih acc2

/-- Missing keys are skipped by the per-bot total. -/
theorem cbwst_skip_absent (d : Dict DataFrame) (modes : List String) (sc sv : String) :
    ∀ (keys : List String) (acc : Dict Nat),
      keys.foldlM (cbwst_step d modes sc sv) acc
        = (presentKeys d keys).foldlM (cbwst_step d modes sc sv) acc := by
  intro keys
  induction keys with
  | nil => intro acc; rfl
  | cons k1 rest ih =>
    intro acc
    rw [presentKeys_cons]
    cases hk : dlookup d k1 with
    | none =>
      rw [if_neg (by exact Bool.false_ne_true)]
      have hL : (k1 :: rest).foldlM (cbwst_step d modes sc sv) acc
          = cbwst_step d modes sc sv acc k1
              >>= (fun a => rest.foldlM (cbwst_step d modes sc sv) a) := rfl
      rw [hL]
      have hstep : cbwst_step d modes sc sv acc k1 = pure acc := by
        simp [cbwst_step, hk]
      rw [hstep]
      show rest.foldlM (cbwst_step d modes sc sv) acc
        = (presentKeys d rest).foldlM (cbwst_step d modes sc sv) acc
      exact ih acc
    | some df =>
      rw [if_pos (by rfl)]
      have hL : (k1 :: rest).foldlM (cbwst_step d modes sc sv) acc
          = cbwst_step d modes sc sv acc k1
              >>= (fun a => rest.foldlM (cbwst_step d modes sc sv) a) := rfl
      have hR : (k1 :: presentKeys d rest).foldlM (cbwst_step d modes sc sv) acc
          = cbwst_step d modes sc sv acc k1
              >>= (fun a => (presentKeys d rest).foldlM (cbwst_step d modes sc sv) a) := rfl
      rw [hL, hR]
      cases hres : cbwst_step d modes sc sv acc k1 with
      | error e => rfl
      | ok acc2 =>
        show rest.foldlM (cbwst_step d modes sc sv) acc2
          = (presentKeys d rest).foldlM (cbwst_step d modes sc sv) acc2
        exact ih acc2

/-- Missing keys are skipped by the problem-text count: the key loop
preserves which keys are present in the mutated partition map, so
skipping is decided by presence in the original map. -/
theorem prcb_go_skip_absent (d : Dict DataFrame) (values : List String) (col : String) :
    ∀ (keys : List String) (acc : Dict (Dict Nat)) (st : Dict DataFrame),
      (∀ k, (dlookup st k).isSome = (dlookup d k).isSome) →
      prcb_go values col keys acc st
        = prcb_go values col (presentKeys d keys) acc st := by
  intro keys
  induction keys with
  | nil => intro acc st _; rfl
  | cons k1 rest ih =>
    intro acc st hinv
    rw [presentKeys_cons]
    cases hk : dlookup d k1 with
    | none =>
      rw [if_neg (by exact Bool.false_ne_true)]
      have hst : dlookup st k1 = none := by
        have := hinv k1
        rw [hk] at this
        cases hl : dlookup st k1 with
        | none => rfl
        | some g => rw [hl] at this; cases this
      simp only [prcb_go, hst]
      exact ih acc st hinv
    | some df =>
      rw [if_pos (by rfl)]
      cases hst : dlookup st k1 with
      | none =>
        have := hinv k1
        rw [hk, hst] at this
        cases this
      | some g =>
        simp only [prcb_go, hst]
        by_cases hcol : col ∈ g.cols
        · rw [if_pos hcol, if_pos hcol]
          apply ih
          intro k
          rw [dlookup_dinsert]
          by_cases hkk : k = k1
          · rw [if_pos hkk, hkk]
            have := hinv k1
            rw [hst] at this
            exact this.symm ▸ rfl
          · rw [if_neg hkk]
            exact hinv k
        · rw [if_neg hcol, if_neg hcol]

/-- Every outcome of the mode loop is success or the uniform
`KeyError`. -/
theorem ctfum_write_cases (filtered : DataFrame) (sv key : String)
    (modes : List String) (acc : Dict Nat) :
    (∃ acc2, ctfum_write filtered sv key modes acc = .ok acc2)
    ∨ ctfum_write filtered sv key modes acc = .error "KeyError" := by
  cases modes with
  | nil => exact Or.inl ⟨acc, rfl⟩
  | cons m rest =>
    by_cases hm : "Mode" ∈ filtered.cols
    · exact Or.inl ⟨_, ctfum_write_ok filtered sv key hm (m :: rest) acc⟩
    · exact Or.inr (ctfum_write_error filtered sv key hm m rest acc)

/-- Every outcome of a key iteration of the status-filtered per-mode
count is success or the uniform `KeyError`. -/
theorem ctfum_step_cases (d : Dict DataFrame) (modes : List String) (sc sv : String)
    (acc : Dict Nat) (k : String) :
    (∃ acc2, ctfum_step d modes sc sv acc k = .ok acc2)
    ∨ ctfum_step d modes sc sv acc k = .error "KeyError" := by
  cases hk : dlookup d k with
  | none => exact Or.inl ⟨acc, by simp only [ctfum_step, hk]; rfl⟩
  | some df =>
    by_cases hsc : sc ∈ df.cols
    · have := ctfum_write_cases
        (filterRows df (fun r => decide (getCell r sc = .str sv))) sv k modes acc
      rcases this with ⟨acc2, hok⟩ | herr
      · exact Or.inl ⟨acc2, by simp only [ctfum_step, hk, if_pos hsc]; exact hok⟩
      · exact Or.inr (by simp only [ctfum_step, hk, if_pos hsc]; exact herr)
    · exact Or.inr (by simp only [ctfum_step, hk, if_neg hsc])

/-- A listed key whose record set lacks the status column makes
`count_tickets_for_unique_modes` raise `KeyError`. -/
theorem ctfum_error_of_bad (d : Dict DataFrame) (modes : List String) (sc sv : String)
    (kbad : String) (dfbad : DataFrame)
    (hdb : dlookup d kbad = some dfbad) (hbad : sc ∉ dfbad.cols) :
    ∀ (keys : List String) (acc : Dict Nat), kbad ∈ keys →
      keys.foldlM (ctfum_step d modes sc sv) acc = .error "KeyError" := by
  intro keys
  induction keys with
  | nil => intro acc hmem; cases hmem
  | cons k1 rest ih =>
    intro acc hmem
    have hL : (k1 :: rest).foldlM (ctfum_step d modes sc sv) acc
        = ctfum_step d modes sc sv acc k1
            >>= (fun a => rest.foldlM (ctfum_step d modes sc sv) a) := rfl
    rw [hL]
    by_cases hk1 : k1 = kbad
    · subst hk1
      have hstep : ctfum_step d modes sc sv acc k1 = .error "KeyError" := by
        simp only [ctfum_step, hdb, if_neg hbad]
      rw [hstep]
      rfl
    · rcases ctfum_step_cases d modes sc sv acc k1 with ⟨acc2, hok⟩ | herr
      · rw [hok]
        have hmem' : kbad ∈ rest := by
          rcases List.mem_cons.mp hmem with he | hr
          · exact absurd he.symm hk1
          · exact hr
        show rest.foldlM (ctfum_step d modes sc sv) acc2 = .error "KeyError"
        exact ih acc2 hmem'
      · rw [herr]
        rfl

/-- Every outcome of a key iteration of the per-bot total is success or
the uniform `KeyError`. -/
theorem cbwst_step_cases (d : Dict DataFrame) (modes : List String) (sc sv : String)
    (acc : Dict Nat) (k : String) :
    (∃ acc2, cbwst_step d modes sc sv acc k = .ok acc2)
    ∨ cbwst_step d modes sc sv acc k = .error "KeyError" := by
  cases hk : dlookup d k with
  | none => exact Or.inl ⟨acc, by simp only [cbwst_step, hk]; rfl⟩
  | some df =>
    by_cases hsc : sc ∈ df.cols
    · by_cases hm : "Mode" ∈ df.cols
      · refine Or.inl ⟨dinsert acc k ((modes.map (fun m =>
          countMatch (filterRows df (fun r => decide (getCell r sc = .str sv)))
            "Mode" (.str m))).sum), ?_⟩
        simp only [cbwst_step, hk, if_pos hsc]
        rw [cbwst_sum_ok (filterRows df (fun r => decide (getCell r sc = .str sv))) hm modes]
        rfl
      · cases modes with
        | nil =>
          refine Or.inl ⟨dinsert acc k 0, ?_⟩
          simp only [cbwst_step, hk, if_pos hsc]
          rfl
        | cons m rest =>
          refine Or.inr ?_
          simp only [cbwst_step, hk, if_pos hsc]
          have hm2 : "Mode" ∉ (filterRows df (fun r => decide (getCell r sc = Value.str sv))).cols := hm
          have : cbwst_sum (filterRows df (fun r => decide (getCell r sc = .str sv)))
              (m :: rest) = .error "KeyError" := by
            simp only [cbwst_sum, if_neg hm2]
          rw [this]
    · exact Or.inr (by simp only [cbwst_step, hk, if_neg hsc])

/-- A listed key whose record set lacks the status column makes
`count_bot_wise_status_tickets` raise `KeyError`. -/
theorem cbwst_error_of_bad (d : Dict DataFrame) (modes : List String) (sc sv : String)
    (kbad : String) (dfbad : DataFrame)
    (hdb : dlookup d kbad = some dfbad) (hbad : sc ∉ dfbad.cols) :
    ∀ (keys : List String) (acc : Dict Nat), kbad ∈ keys →
      keys.foldlM (cbwst_step d modes sc sv) acc = .error "KeyError" := by
  intro keys
  induction keys with
  | nil => intro acc hmem; cases hmem
  | cons k1 rest ih =>
    intro acc hmem
    have hL : (k1 :: rest).foldlM (cbwst_step d modes sc sv) acc
        = cbwst_step d modes sc sv acc k1
            >>= (fun a => rest.foldlM (cbwst_step d modes sc sv) a) := rfl
    rw [hL]
    by_cases hk1 : k1 = kbad
    · subst hk1
      have hstep : cbwst_step d modes sc sv acc k1 = .error "KeyError" := by
        simp only [cbwst_step, hdb, if_neg hbad]
      rw [hstep]
      rfl
    · rcases cbwst_step_cases d modes sc sv acc k1 with ⟨acc2, hok⟩ | herr
      · rw [hok]
        have hmem' : kbad ∈ rest := by
          rcases List.mem_cons.mp hmem with he | hr
          · exact absurd he.symm hk1
          · exact hr
        show rest.foldlM (cbwst_step d modes sc sv) acc2 = .error "KeyError"
        exact ih acc2 hmem'
      · rw [herr]
        rfl

/-- A listed key whose record set lacks the counted column makes the
problem-text count raise `NameError` (the broken warning line). -/
theorem prcb_go_error (values : List String) (col : String) (kbad : String)
    (dfbad : DataFrame) (hbad : col ∉ dfbad.cols) :
    ∀ (keys : List String) (acc : Dict (Dict Nat)) (st : Dict DataFrame),
      kbad ∈ keys → dlookup st kbad = some dfbad →
      (prcb_go values col keys acc st).1 = .error "NameError" := by
  intro keys
  induction keys with
  | nil => intro acc st hmem; cases hmem
  | cons k1 rest ih =>
    intro acc st hmem hst
    by_cases hk1 : k1 = kbad
    · subst hk1
      simp only [prcb_go, hst, if_neg hbad]
    · cases hstk : dlookup st k1 with
      | none =>
        simp only [prcb_go, hstk]
        have hmem' : kbad ∈ rest := by
          rcases List.mem_cons.mp hmem with he | hr
          · exact absurd he.symm hk1
          · exact hr
        exact ih acc st hmem' hst
      | some g =>
        simp only [prcb_go, hstk]
        by_cases hcol : col ∈ g.cols
        · rw [if_pos hcol]
          have hmem' : kbad ∈ rest := by
            rcases List.mem_cons.mp hmem with he | hr
            · exact absurd he.symm hk1
            · exact hr
          apply ih _ _ hmem'
          rw [dlookup_dinsert, if_neg (fun he : kbad = k1 => hk1 he.symm)]
          exact hst
        · rw [if_neg hcol]

/-- C5 (amended): every counting operation skips requested keys that
are absent from the partition map (the result is as if only the
present keys were requested), and the partitioner and the two
column-checking counts degrade gracefully — but a listed key whose
record set lacks the status column makes the two status-filtered
operations raise `KeyError`, and one lacking the counted column makes
the problem-text count raise `NameError`, contradicting the original
claim for missing columns. -/
theorem counting_ops_skip_keys_raise_on_columns :
    (∀ (d : Dict DataFrame) (keys values : List String) (col : String),
      total_ticket_received_count d keys values col
        = total_ticket_received_count d (presentKeys d keys) values col)
    ∧ (∀ (d : Dict DataFrame) (keys values : List String) (col : String),
      total_ticket_received_count_modewise d keys values col
        = total_ticket_received_count_modewise d (presentKeys d keys) values col)
    ∧ (∀ (d : Dict DataFrame) (keys modes : List String) (sc sv : String),
      count_tickets_for_unique_modes d keys modes sc sv
        = count_tickets_for_unique_modes d (presentKeys d keys) modes sc sv)
    ∧ (∀ (d : Dict DataFrame) (keys modes : List String) (sc sv : String),
      count_bot_wise_status_tickets d keys modes sc sv
        = count_bot_wise_status_tickets d (presentKeys d keys) modes sc sv)
    ∧ (∀ (d : Dict DataFrame) (keys values : List String) (col : String),
      problem_reported_count_botwise d keys values col
        = problem_reported_count_botwise d (presentKeys d keys) values col)
    ∧ (∀ (d : Dict DataFrame) (keys modes : List String) (sc sv kbad : String)
        (dfbad : DataFrame), kbad ∈ keys → dlookup d kbad = some dfbad → sc ∉ dfbad.cols →
      count_tickets_for_unique_modes d keys modes sc sv = .error "KeyError")
    ∧ (∀ (d : Dict DataFrame) (keys modes : List String) (sc sv kbad : String)
        (dfbad : DataFrame), kbad ∈ keys → dlookup d kbad = some dfbad → sc ∉ dfbad.cols →
      count_bot_wise_status_tickets d keys modes sc sv = .error "KeyError")
    ∧ (∀ (d : Dict DataFrame) (keys values : List String) (col kbad : String)
        (dfbad : DataFrame), kbad ∈ keys → dlookup d kbad = some dfbad → col ∉ dfbad.cols →
      (problem_reported_count_botwise d keys values col).1 = .error "NameError") := by
  refine ⟨?_, ?_, ?_, ?_, ?_, ?_, ?_, ?_⟩
  · intro d keys values col
    exact ttrc_skip_absent d values col keys []
  · intro d keys values col
    exact mw_skip_absent d values col keys _
  · intro d keys modes sc sv
    exact ctfum_skip_absent d modes sc sv keys []
  · intro d keys modes sc sv
    exact cbwst_skip_absent d modes sc sv keys []
  · intro d keys values col
    exact prcb_go_skip_absent d values col keys _ d (fun _ => rfl)
  · intro d keys modes sc sv kbad dfbad hmem hdb hbad
    exact ctfum_error_of_bad d modes sc sv kbad dfbad hdb hbad keys [] hmem
  · intro d keys modes sc sv kbad dfbad hmem hdb hbad
    exact cbwst_error_of_bad d modes sc sv kbad dfbad hdb hbad keys [] hmem
  · intro d keys values col kbad dfbad hmem hdb hbad
    exact prcb_go_error values col kbad dfbad hbad keys _ d hmem hdb

/-- C5 counterexample: a one-key map whose record set lacks the
`Status` column makes `count_tickets_for_unique_modes` raise the
`KeyError` (an uncaught exception in the source), refuting "returns
normally when a referenced column is absent". -/
theorem counting_ops_skip_keys_raise_on_columns_cex :
    count_tickets_for_unique_modes [("A", dfNoStatus)] ["A"] ["Email"] "Status" "Closed"
      = .error "KeyError" := by
  rfl

/-- C5 witness: the amended statement at concrete inputs — an absent
key `B` is skipped, and a missing `Status` column raises. -/
theorem counting_ops_skip_keys_raise_on_columns_witness :
    count_tickets_for_unique_modes [("A", dfScenario)] ["A", "B"] ["Email"] "Status" "Closed"
      = count_tickets_for_unique_modes [("A", dfScenario)]
          (presentKeys [("A", dfScenario)] ["A", "B"]) ["Email"] "Status" "Closed"
    ∧ count_bot_wise_status_tickets [("A", dfNoStatus)] ["A"] ["Email"] "Status" "Closed"
      = .error "KeyError" :=
  ⟨counting_ops_skip_keys_raise_on_columns.2.2.1 [("A", dfScenario)] ["A", "B"]
      ["Email"] "Status" "Closed",
   counting_ops_skip_keys_raise_on_columns.2.2.2.2.2.2.1 [("A", dfNoStatus)] ["A"]
      ["Email"] "Status" "Closed" "A" dfNoStatus (by decide) (by decide) (by decide)⟩

/-! Claim C10: the two time-window filters and the problem-text count
mutate their caller's data in place. -/

theorem mapCol_cols_of_mem (df : DataFrame) (c : String) (f : Value → Value)
    (h : c ∈ df.cols) : (mapCol df c f).cols = df.cols := by
  simp [mapCol, if_pos h]

/-- The key loop of the problem-text count leaves the entries of
unprocessed keys untouched, also when it aborts with the `NameError`. -/
theorem prcb_go_preserves (values : List String) (col key : String) :
    ∀ (keys : List String) (acc : Dict (Dict Nat)) (st : Dict DataFrame),
      key ∉ keys →
      dlookup (prcb_go values col keys acc st).2 key = dlookup st key := by
  intro keys
  induction keys with
  | nil => intro acc st _; rfl
  | cons k1 rest ih =>
    intro acc st hnot
    have hne : key ≠ k1 := fun he => hnot (he ▸ List.mem_cons_self _ _)
    have hnr : key ∉ rest := fun hr => hnot (List.mem_cons_of_mem _ hr)
    cases hstk : dlookup st k1 with
    | none =>
      simp only [prcb_go, hstk]
      exact ih acc st hnr
    | some g =>
      simp only [prcb_go, hstk]
      by_cases hcol : col ∈ g.cols
      · rw [if_pos hcol]
        rw [ih _ _ hnr]
        rw [dlookup_dinsert, if_neg hne]
      · rw [if_neg hcol]

/-- The key loop of the problem-text count replaces each processed
key's record set with its column-cleaned version. -/
theorem prcb_go_state (values : List String) (col key : String) (dfk : DataFrame) :
    ∀ (keys : List String) (acc : Dict (Dict Nat)) (st : Dict DataFrame),
      keys.Nodup → key ∈ keys → dlookup st key = some dfk →
      (∀ k ∈ keys, ∀ g, dlookup st k = some g → col ∈ g.cols) →
      dlookup (prcb_go values col keys acc st).2 key
        = some (mapCol dfk col cleanValue) := by
  intro keys
  induction keys with
  | nil => intro acc st _ hmem; cases hmem
  | cons k1 rest ih =>
    intro acc st hnd hmem hst hcols
    by_cases hk1 : k1 = key
    · subst hk1
      have hcol : col ∈ dfk.cols := hcols k1 (List.mem_cons_self _ _) dfk hst
      simp only [prcb_go, hst, if_pos hcol]
      have hnr : k1 ∉ rest := (List.nodup_cons.mp hnd).1
      rw [prcb_go_preserves values col k1 rest _ _ hnr]
      rw [dlookup_dinsert, if_pos rfl]
    · have hmem' : key ∈ rest := by
        rcases List.mem_cons.mp hmem with he | hr
        · exact absurd he.symm hk1
        · exact hr
      cases hstk : dlookup st k1 with
      | none =>
        simp only [prcb_go, hstk]
        exact ih acc st (List.Nodup.of_cons hnd) hmem' hst
          (fun k hk => hcols k (List.mem_cons_of_mem _ hk))
      | some g =>
        have hcolg : col ∈ g.cols := hcols k1 (List.mem_cons_self _ _) g hstk
        simp only [prcb_go, hstk, if_pos hcolg]
        apply ih _ _ (List.Nodup.of_cons hnd) hmem'
        · rw [dlookup_dinsert, if_neg (fun he : key = k1 => hk1 he.symm)]
          exact hst
        · intro k hk g2 hg2
          rw [dlookup_dinsert] at hg2
          by_cases hkk : k = k1
          · rw [if_pos hkk] at hg2
            cases hg2
            rw [mapCol_cols_of_mem g col cleanValue hcolg]
            exact hcolg
          · rw [if_neg hkk] at hg2
            exact hcols k (List.mem_cons_of_mem _ hk) g2 hg2

/-- C10: the filters and the problem-text count are not pure in their
inputs.  The two filters overwrite the caller's date column in place
with the parsed values (coercing failures to NaT) before selecting
rows; the problem-text count overwrites the counted column of each
stored partition record set with lowercased, stripped text.  On
concrete inputs the caller's structures differ after the call from
before it. -/
theorem filters_and_problem_count_mutate_input :
    (∀ (parse : String → Option Int) (df : DataFrame) (col : String) (c : Int),
      col ∈ df.cols →
      (filter_last_8_days parse df col c).2 = mapCol df col (parseDate parse))
    ∧ (∀ (parse : String → Option Int) (df : DataFrame) (col : String) (c : Int),
      col ∈ df.cols →
      (filter_before_last_8_days parse df col c).2 = mapCol df col (parseDate parse))
    ∧ (∀ (d : Dict DataFrame) (keys values : List String) (col key : String)
        (dfk : DataFrame),
      keys.Nodup → key ∈ keys → dlookup d key = some dfk →
      (∀ k ∈ keys, ∀ g, dlookup d k = some g → col ∈ g.cols) →
      dlookup (problem_reported_count_botwise d keys values col).2 key
        = some (mapCol dfk col cleanValue))
    ∧ (filter_last_8_days sampleParse dfDates "Ticket Creation Date" 21).2 ≠ dfDates
    ∧ (problem_reported_count_botwise problemsMap ["A"] ["broken screen"]
        "Problem Reported").2 ≠ problemsMap := by
  refine ⟨?_, ?_, ?_, ?_, ?_⟩
  · intro parse df col c h
    simp only [filter_last_8_days, if_pos h]
  · intro parse df col c h
    simp only [filter_before_last_8_days, if_pos h]
  · intro d keys values col key dfk hnd hmem hk hcols
    exact prcb_go_state values col key dfk keys _ d hnd hmem hk hcols
  · decide
  · decide

/-- C10 witness: the post-state characterisations applied at concrete
inputs. -/
theorem filters_and_problem_count_mutate_input_witness :
    (filter_last_8_days sampleParse dfDates "Ticket Creation Date" 21).2
      = mapCol dfDates "Ticket Creation Date" (parseDate sampleParse)
    ∧ dlookup (problem_reported_count_botwise problemsMap ["A"] ["broken screen"]
        "Problem Reported").2 "A"
      = some (mapCol dfProblems "Problem Reported" cleanValue) :=
  ⟨filters_and_problem_count_mutate_input.1 sampleParse dfDates "Ticket Creation Date" 21
      (by decide),
   filters_and_problem_count_mutate_input.2.2.1 problemsMap ["A"] ["broken screen"]
      "Problem Reported" "A" dfProblems (by decide) (by decide) (by decide) (by decide)⟩

end SupportReport
